import Mathlib

/-!
Shallow embedding of a scalar reverse-mode automatic-differentiation
engine (`value.rs`) and the neural-network layer built on it (`nn.rs`).

In Rust a `Value` is `Rc<RefCell<RawValue>>`: a shared mutable cell,
hashed and compared by pointer identity.  The embedding uses the arena
style: a graph is a list of `RawValue` records and a node is its index
in that list; pointer identity becomes index equality, and the
`HashSet<Value>` visited set of `backward` becomes a list of indices.
`f64` is modelled as an arbitrary field `α` together with a `FloatOps`
record supplying the `powf`, `exp` and formatting primitives; theorems
about concrete numerics instantiate `α := ℝ` (with `Real.rpow` and
`Real.exp`) or `α := ℚ`.
-/

structure RawValue (α : Type) where
  data : α
  grad : α
  op : String
  label : String
  children : List Nat
  extra : α
deriving DecidableEq, Repr

abbrev Graph (α : Type) := List (RawValue α)

/-- The floating-point primitives that `value.rs` takes from `f64`:
`powf`, `exp`, and the `format!("{}", p)` rendering used to build the
`pow(p)` operation tag. -/
structure FloatOps (α : Type) where
  powf : α → α → α
  fexp : α → α
  fmt : α → String

variable {α : Type} [Field α]

def defaultRaw : RawValue α :=
  { data := 0, grad := 0, op := "", label := "", children := [], extra := 0 }

def getRaw (g : Graph α) (i : Nat) : RawValue α := g.getD i defaultRaw

def getData (g : Graph α) (i : Nat) : α := (getRaw g i).data

def getGrad (g : Graph α) (i : Nat) : α := (getRaw g i).grad

def getOp (g : Graph α) (i : Nat) : String := (getRaw g i).op

def getChildren (g : Graph α) (i : Nat) : List Nat := (getRaw g i).children

def getExtra (g : Graph α) (i : Nat) : α := (getRaw g i).extra

def getLabel (g : Graph α) (i : Nat) : String := (getRaw g i).label

/-- `Value::new`: a fresh leaf node, appended to the arena. -/
def Value.new (g : Graph α) (d : α) : Graph α × Nat :=
  (g ++ [{ data := d, grad := 0, op := "", label := "", children := [], extra := 0 }],
   g.length)

/-- `Value::new_for_op`: a fresh derived node. -/
def Value.new_for_op (g : Graph α) (d : α) (op : String) (children : List Nat)
    (extra : α) : Graph α × Nat :=
  (g ++ [{ data := d, grad := 0, op := op, label := "", children := children,
           extra := extra }],
   g.length)

/-- `Value::set_grad` (`grad = v`). -/
def Value.set_grad (g : Graph α) (i : Nat) (v : α) : Graph α :=
  g.set i { getRaw g i with grad := v }

/-- `Value::update_grad` (`grad += v`). -/
def Value.update_grad (g : Graph α) (i : Nat) (v : α) : Graph α :=
  Value.set_grad g i (getGrad g i + v)

/-- `Value::update_data` (`data += d`). -/
def Value.update_data (g : Graph α) (i : Nat) (d : α) : Graph α :=
  g.set i { getRaw g i with data := (getRaw g i).data + d }

def Value.add (g : Graph α) (i j : Nat) : Graph α × Nat :=
  Value.new_for_op g (getData g i + getData g j) "+" [i, j] 0

def Value.mul (g : Graph α) (i j : Nat) : Graph α × Nat :=
  Value.new_for_op g (getData g i * getData g j) "*" [i, j] 0

/-- `Value::neg`: `mul(v1, Value::new(-1.0))`. -/
def Value.neg (g : Graph α) (i : Nat) : Graph α × Nat :=
  let (g1, m) := Value.new g (-1)
  Value.mul g1 i m

/-- `Value::sub`: `add(v1, neg(v2))`. -/
def Value.sub (g : Graph α) (i j : Nat) : Graph α × Nat :=
  let (g1, nj) := Value.neg g j
  Value.add g1 i nj

/-- `Value::pow`: tag `pow(p)`, the exponent kept in `extra`. -/
def Value.pow (F : FloatOps α) (g : Graph α) (i : Nat) (p : α) : Graph α × Nat :=
  Value.new_for_op g (F.powf (getData g i) p) ("pow(" ++ F.fmt p ++ ")") [i] p

/-- `Value::div`: `mul(v1, pow(v2, -1.0))`. -/
def Value.div (F : FloatOps α) (g : Graph α) (i j : Nat) : Graph α × Nat :=
  let (g1, pj) := Value.pow F g j (-1)
  Value.mul g1 i pj

def Value.exp (F : FloatOps α) (g : Graph α) (i : Nat) : Graph α × Nat :=
  Value.new_for_op g (F.fexp (getData g i)) "exp" [i] 0

/-- `Value::tanh`: `(exp(2x) - 1) / (exp(2x) + 1)`, with the arena
appends in the evaluation order of the Rust expression. -/
def Value.tanh (F : FloatOps α) (g : Graph α) (i : Nat) : Graph α × Nat :=
  let (g1, two) := Value.new g 2
  let (g2, m) := Value.mul g1 i two
  let (g3, e) := Value.exp F g2 m
  let (g4, one1) := Value.new g3 1
  let (g5, s) := Value.sub g4 e one1
  let (g6, one2) := Value.new g5 1
  let (g7, q) := Value.add g6 e one2
  Value.div F g7 s q

/-- Rust's `str::starts_with`, i.e. a prefix test on the character
sequences.  (`String.startsWith` itself is byte-level and does not
reduce in the kernel, so the embedding states the same predicate over
`List Char`.) -/
def startsWithTag (s pre : String) : Bool :=
  decide (s.toList.take pre.toList.length = pre.toList)

/-- `Value::_backward`: the per-node local-gradient rule dispatch.
`val.grad` is read once at entry (the Rust code holds a borrow), and
the two updates of a binary rule run sequentially. -/
def Value.backwardNode (F : FloatOps α) (g : Graph α) (i : Nat) : Graph α :=
  let pg := getGrad g i
  let ch := getChildren g i
  let operation := getOp g i
  if operation = "+" then
    let g1 := Value.update_grad g (ch.getD 0 0) pg
    Value.update_grad g1 (ch.getD 1 0) pg
  else if operation = "*" then
    let g1 := Value.update_grad g (ch.getD 0 0) (pg * getData g (ch.getD 1 0))
    Value.update_grad g1 (ch.getD 1 0) (pg * getData g1 (ch.getD 0 0))
  else if operation = "exp" then
    Value.update_grad g (ch.getD 0 0) (pg * getData g i)
  else if startsWithTag operation "pow(" then
    let p := getExtra g i
    Value.update_grad g (ch.getD 0 0)
      (pg * p * F.powf (getData g (ch.getD 0 0)) (p - 1))
  else
    g

/-- The inner `for child in node.get_children()` loop of `backward`:
push every not-yet-visited child onto the stack, in order (so the last
child ends up on top). -/
def pushChildren (visited : List Nat) (cs : List Nat) (stack : List Nat) : List Nat :=
  cs.foldl (fun st c => if visited.contains c then st else c :: st) stack

/-- The `while !stack.is_empty()` loop of `Value::backward`, with the
stack's top at the head.  The loop always terminates (each iteration
either freshly visits a node or pops the stack), so the fuel is just
embedding machinery; `backFuel` below always suffices. -/
def topoLoop (g : Graph α) : Nat → List Nat → List Nat → List Nat → List Nat
  | 0, _, _, topo => topo
  | _ + 1, [], _, topo => topo
  | fuel + 1, node :: rest, visited, topo =>
    if visited.contains node then
      topoLoop g fuel rest visited (topo ++ [node])
    else
      topoLoop g fuel (pushChildren (node :: visited) (getChildren g node) (node :: rest))
        (node :: visited) topo

def maxChildren (g : Graph α) : Nat :=
  (List.range g.length).foldr (fun i m => max (getChildren g i).length m) 0

def backFuel (g : Graph α) (root : Nat) : Nat :=
  (root + 2) * (maxChildren g + 2) + 2

/-- The `topo_sort` vector computed inside `Value::backward`. -/
def topoSort (g : Graph α) (root : Nat) : List Nat :=
  topoLoop g (backFuel g root) [root] [] []

/-- `Value::backward`: topological sequence, seed the root gradient at
1, then `_backward` each node of the sequence in reverse order. -/
def Value.backward (F : FloatOps α) (g : Graph α) (root : Nat) : Graph α :=
  (topoSort g root).reverse.foldl (fun gr n => Value.backwardNode F gr n)
    (Value.set_grad g root 1)

/-- A `Neuron` from `nn.rs`: indices of its weight leaves and of its
bias leaf. -/
structure Neuron where
  w : List Nat
  b : Nat

/-- The `for i in 0..self.w.len()` accumulation loop of
`Neuron::forward`.  Indexing `x[i]` out of bounds is a Rust panic,
modelled as `none`. -/
def forwardLoop (g : Graph α) (y : Nat) : List Nat → List Nat → Option (Graph α × Nat)
  | [], _ => some (g, y)
  | _ :: _, [] => none
  | wi :: ws, xi :: xs =>
    let (g1, m) := Value.mul g wi xi
    let (g2, y1) := Value.add g1 y m
    forwardLoop g2 y1 ws xs

/-- `Neuron::forward`: note the accumulator starts from
`Value::new(self.b.get_data())` — a fresh leaf holding a copy of the
bias's data, not the bias node itself. -/
def Neuron.forward (F : FloatOps α) (g : Graph α) (n : Neuron) (x : List Nat) :
    Option (Graph α × Nat) :=
  let (g0, y0) := Value.new g (getData g n.b)
  match forwardLoop g0 y0 n.w x with
  | none => none
  | some (g1, y1) => some (Value.tanh F g1 y1)

/-- `Neuron::parameters`: weights then bias. -/
def Neuron.parameters (n : Neuron) : List Nat := n.w ++ [n.b]

/-- `MLP::zero_grad` restricted to a list of parameter indices. -/
def zeroGrad (g : Graph α) (ps : List Nat) : Graph α :=
  ps.foldl (fun gr p => Value.set_grad gr p 0) g

/-- Well-formedness produced by the graph-building constructors: every
operand precedes its consumer in the arena (the construction
discipline that makes cycles impossible), and every operation tag has
the operand arity its local-gradient rule dereferences. -/
def WF (g : Graph α) : Prop :=
  ∀ i, i < g.length →
    ((∀ c ∈ getChildren g i, c < i)
     ∧ (getOp g i = "+" ∨ getOp g i = "*" → (getChildren g i).length = 2)
     ∧ ((getOp g i = "exp" ∨ startsWithTag (getOp g i) "pow(" = true) →
         (getChildren g i).length = 1))

instance (g : Graph α) : Decidable (WF g) := by
  unfold WF
  infer_instance

/-- Concrete `FloatOps` over `ℚ` for witnesses: `powf` is integer
exponentiation (exact for the integral exponents that witnesses use)
and `exp` is a stub (no witness depends on an `exp` value). -/
def ratOps : FloatOps ℚ where
  powf := fun x p => x ^ p.num
  fexp := fun _ => 0
  fmt := fun p => toString p.num

/-- The `f64` model used for numeric claims: real numbers with
`Real.rpow` for `powf` and `Real.exp` for `exp`. -/
noncomputable def realOps : FloatOps ℝ where
  powf := fun x p => x ^ p
  fexp := Real.exp
  fmt := fun _ => ""

/-- A tiny arena used by witnesses: two independent leaves. -/
def twoLeaves : Graph ℚ :=
  [{ data := 3, grad := 0, op := "", label := "", children := [], extra := 0 },
   { data := 5, grad := 0, op := "", label := "", children := [], extra := 0 }]

/-- The counterexample graph for the topological-sort claim: leaves
`a = b = c = 1` (ids 0, 1, 2), `q = add(a, b)` (id 3),
`p = mul(q, c)` (id 4), `r = add(q, p)` (id 5) — `q` has two
consumers, `r` directly and through `p`. -/
def dagQP : Graph ℚ :=
  (Value.add
    (Value.mul
      (Value.add (Value.new (Value.new (Value.new ([] : Graph ℚ) 1).1 1).1 1).1 0 1).1
      3 2).1
    3 4).1

/-- Two independent real leaves, the witness arena for the
refinement theorem. -/
noncomputable def twoRealLeaves : Graph ℝ :=
  [{ data := 3, grad := 0, op := "", label := "", children := [], extra := 0 },
   { data := 5, grad := 0, op := "", label := "", children := [], extra := 0 }]

/-! ### Frame lemmas for the arena accessors and mutators -/

theorem getRaw_out (g : Graph α) (i : Nat) (h : g.length ≤ i) :
    getRaw g i = defaultRaw := by
  simp [getRaw, List.getD_eq_getElem?_getD, List.getElem?_eq_none h]

theorem length_set_grad (g : Graph α) (i : Nat) (v : α) :
    (Value.set_grad g i v).length = g.length := List.length_set ..

theorem getRaw_set_grad (g : Graph α) (i : Nat) (v : α) (k : Nat) :
    getRaw (Value.set_grad g i v) k =
      if k = i ∧ i < g.length then { getRaw g i with grad := v } else getRaw g k := by
  rcases eq_or_ne k i with rfl | hne
  · by_cases hlt : k < g.length
    · simp only [hlt, and_true, if_pos rfl]
      simp [Value.set_grad, getRaw, List.getD_eq_getElem?_getD,
        List.getElem?_set_eq_of_lt _ hlt]
    · simp only [hlt, and_false, if_false]
      rw [Value.set_grad, List.set_eq_of_length_le (Nat.le_of_not_lt hlt)]
  · simp only [hne, false_and, if_false]
    simp [Value.set_grad, getRaw, List.getD_eq_getElem?_getD,
      List.getElem?_set_ne (Ne.symm hne)]

theorem getGrad_set_grad (g : Graph α) (i : Nat) (v : α) (k : Nat) :
    getGrad (Value.set_grad g i v) k =
      if k = i ∧ i < g.length then v else getGrad g k := by
  rw [getGrad, getRaw_set_grad]
  split <;> rfl

theorem getData_set_grad (g : Graph α) (i : Nat) (v : α) (k : Nat) :
    getData (Value.set_grad g i v) k = getData g k := by
  rw [getData, getRaw_set_grad]
  split
  · next h => rw [h.1]; rfl
  · rfl

theorem getOp_set_grad (g : Graph α) (i : Nat) (v : α) (k : Nat) :
    getOp (Value.set_grad g i v) k = getOp g k := by
  rw [getOp, getRaw_set_grad]
  split
  · next h => rw [h.1]; rfl
  · rfl

theorem getChildren_set_grad (g : Graph α) (i : Nat) (v : α) (k : Nat) :
    getChildren (Value.set_grad g i v) k = getChildren g k := by
  rw [getChildren, getRaw_set_grad]
  split
  · next h => rw [h.1]; rfl
  · rfl

theorem getExtra_set_grad (g : Graph α) (i : Nat) (v : α) (k : Nat) :
    getExtra (Value.set_grad g i v) k = getExtra g k := by
  rw [getExtra, getRaw_set_grad]
  split
  · next h => rw [h.1]; rfl
  · rfl

theorem getLabel_set_grad (g : Graph α) (i : Nat) (v : α) (k : Nat) :
    getLabel (Value.set_grad g i v) k = getLabel g k := by
  rw [getLabel, getRaw_set_grad]
  split
  · next h => rw [h.1]; rfl
  · rfl

theorem length_update_grad (g : Graph α) (i : Nat) (v : α) :
    (Value.update_grad g i v).length = g.length := length_set_grad ..

theorem getGrad_update_grad (g : Graph α) (i : Nat) (v : α) (k : Nat) :
    getGrad (Value.update_grad g i v) k =
      if k = i ∧ i < g.length then getGrad g i + v else getGrad g k := by
  rw [Value.update_grad, getGrad_set_grad]

theorem getData_update_grad (g : Graph α) (i : Nat) (v : α) (k : Nat) :
    getData (Value.update_grad g i v) k = getData g k := getData_set_grad ..

theorem getOp_update_grad (g : Graph α) (i : Nat) (v : α) (k : Nat) :
    getOp (Value.update_grad g i v) k = getOp g k := getOp_set_grad ..

theorem getChildren_update_grad (g : Graph α) (i : Nat) (v : α) (k : Nat) :
    getChildren (Value.update_grad g i v) k = getChildren g k := getChildren_set_grad ..

theorem getExtra_update_grad (g : Graph α) (i : Nat) (v : α) (k : Nat) :
    getExtra (Value.update_grad g i v) k = getExtra g k := getExtra_set_grad ..

theorem getLabel_update_grad (g : Graph α) (i : Nat) (v : α) (k : Nat) :
    getLabel (Value.update_grad g i v) k = getLabel g k := getLabel_set_grad ..

theorem getRaw_update_data (g : Graph α) (i : Nat) (d : α) (k : Nat) :
    getRaw (Value.update_data g i d) k =
      if k = i ∧ i < g.length then
        { getRaw g i with data := (getRaw g i).data + d }
      else getRaw g k := by
  rcases eq_or_ne k i with rfl | hne
  · by_cases hlt : k < g.length
    · simp only [hlt, and_true, if_pos rfl]
      simp [Value.update_data, getRaw, List.getD_eq_getElem?_getD,
        List.getElem?_set_eq_of_lt _ hlt]
    · simp only [hlt, and_false, if_false]
      rw [Value.update_data, List.set_eq_of_length_le (Nat.le_of_not_lt hlt)]
  · simp only [hne, false_and, if_false]
    simp [Value.update_data, getRaw, List.getD_eq_getElem?_getD,
      List.getElem?_set_ne (Ne.symm hne)]

/-! ### `_backward` only mutates gradient fields -/

theorem length_backwardNode (F : FloatOps α) (g : Graph α) (i : Nat) :
    (Value.backwardNode F g i).length = g.length := by
  rw [Value.backwardNode]
  split_ifs <;> simp [length_update_grad]

theorem getData_backwardNode (F : FloatOps α) (g : Graph α) (i k : Nat) :
    getData (Value.backwardNode F g i) k = getData g k := by
  rw [Value.backwardNode]
  split_ifs <;> simp [getData_update_grad]

theorem getOp_backwardNode (F : FloatOps α) (g : Graph α) (i k : Nat) :
    getOp (Value.backwardNode F g i) k = getOp g k := by
  rw [Value.backwardNode]
  split_ifs <;> simp [getOp_update_grad]

theorem getChildren_backwardNode (F : FloatOps α) (g : Graph α) (i k : Nat) :
    getChildren (Value.backwardNode F g i) k = getChildren g k := by
  rw [Value.backwardNode]
  split_ifs <;> simp [getChildren_update_grad]

theorem getExtra_backwardNode (F : FloatOps α) (g : Graph α) (i k : Nat) :
    getExtra (Value.backwardNode F g i) k = getExtra g k := by
  rw [Value.backwardNode]
  split_ifs <;> simp [getExtra_update_grad]

theorem getLabel_backwardNode (F : FloatOps α) (g : Graph α) (i k : Nat) :
    getLabel (Value.backwardNode F g i) k = getLabel g k := by
  rw [Value.backwardNode]
  split_ifs <;> simp [getLabel_update_grad]

theorem length_walk (F : FloatOps α) (L : List Nat) :
    ∀ g : Graph α,
      (L.foldl (fun gr n => Value.backwardNode F gr n) g).length = g.length := by
  induction L with
  | nil => intro g; rfl
  | cons t L ih =>
    intro g
    rw [List.foldl_cons, ih, length_backwardNode]

theorem getData_walk (F : FloatOps α) (L : List Nat) (k : Nat) :
    ∀ g : Graph α,
      getData (L.foldl (fun gr n => Value.backwardNode F gr n) g) k = getData g k := by
  induction L with
  | nil => intro g; rfl
  | cons t L ih =>
    intro g
    rw [List.foldl_cons, ih, getData_backwardNode]

theorem getOp_walk (F : FloatOps α) (L : List Nat) (k : Nat) :
    ∀ g : Graph α,
      getOp (L.foldl (fun gr n => Value.backwardNode F gr n) g) k = getOp g k := by
  induction L with
  | nil => intro g; rfl
  | cons t L ih =>
    intro g
    rw [List.foldl_cons, ih, getOp_backwardNode]

theorem getChildren_walk (F : FloatOps α) (L : List Nat) (k : Nat) :
    ∀ g : Graph α,
      getChildren (L.foldl (fun gr n => Value.backwardNode F gr n) g) k
        = getChildren g k := by
  induction L with
  | nil => intro g; rfl
  | cons t L ih =>
    intro g
    rw [List.foldl_cons, ih, getChildren_backwardNode]

theorem getExtra_walk (F : FloatOps α) (L : List Nat) (k : Nat) :
    ∀ g : Graph α,
      getExtra (L.foldl (fun gr n => Value.backwardNode F gr n) g) k = getExtra g k := by
  induction L with
  | nil => intro g; rfl
  | cons t L ih =>
    intro g
    rw [List.foldl_cons, ih, getExtra_backwardNode]

theorem getLabel_walk (F : FloatOps α) (L : List Nat) (k : Nat) :
    ∀ g : Graph α,
      getLabel (L.foldl (fun gr n => Value.backwardNode F gr n) g) k = getLabel g k := by
  induction L with
  | nil => intro g; rfl
  | cons t L ih =>
    intro g
    rw [List.foldl_cons, ih, getLabel_backwardNode]

/-! ### Which gradients a `_backward` step can write -/

theorem getGrad_backwardNode_notmem (F : FloatOps α) (g : Graph α) (i k : Nat)
    (hk0 : k ≠ (getChildren g i).getD 0 0) (hk1 : k ≠ (getChildren g i).getD 1 0) :
    getGrad (Value.backwardNode F g i) k = getGrad g k := by
  rw [Value.backwardNode]
  split_ifs with ha hm he hp
  · rw [getGrad_update_grad, if_neg (fun h => hk1 h.1),
      getGrad_update_grad, if_neg (fun h => hk0 h.1)]
  · rw [getGrad_update_grad, if_neg (fun h => hk1 h.1),
      getGrad_update_grad, if_neg (fun h => hk0 h.1)]
  · rw [getGrad_update_grad, if_neg (fun h => hk0 h.1)]
  · rw [getGrad_update_grad, if_neg (fun h => hk0 h.1)]
  · rfl

theorem getGrad_walk_notmem (F : FloatOps α) (k : Nat) (L : List Nat) :
    ∀ g : Graph α,
      (∀ t ∈ L, k ≠ (getChildren g t).getD 0 0 ∧ k ≠ (getChildren g t).getD 1 0) →
      getGrad (L.foldl (fun gr n => Value.backwardNode F gr n) g) k = getGrad g k := by
  induction L with
  | nil => intro g _; rfl
  | cons t L ih =>
    intro g hL
    rw [List.foldl_cons, ih]
    · exact getGrad_backwardNode_notmem F g t k (hL t (by simp)).1 (hL t (by simp)).2
    · intro u hu
      rw [getChildren_backwardNode]
      exact hL u (by simp [hu])

theorem getGrad_backwardNode_ge (F : FloatOps α) (g : Graph α) (i k : Nat)
    (hch : ∀ u ∈ getChildren g i, u < i)
    (h2 : getOp g i = "+" ∨ getOp g i = "*" → (getChildren g i).length = 2)
    (h1 : (getOp g i = "exp" ∨ startsWithTag (getOp g i) "pow(" = true) →
      (getChildren g i).length = 1)
    (hk : i ≤ k) :
    getGrad (Value.backwardNode F g i) k = getGrad g k := by
  by_cases ha : getOp g i = "+" ∨ getOp g i = "*"
  · obtain ⟨c0, c1, hc⟩ := List.length_eq_two.mp (h2 ha)
    have h0 : c0 < i := hch c0 (by rw [hc]; simp)
    have h1' : c1 < i := hch c1 (by rw [hc]; simp)
    exact getGrad_backwardNode_notmem F g i k
      (by rw [hc]; simp only [List.getD_cons_zero]; omega)
      (by rw [hc]; simp only [List.getD_cons_succ, List.getD_cons_zero]; omega)
  · by_cases hb : getOp g i = "exp" ∨ startsWithTag (getOp g i) "pow(" = true
    · obtain ⟨c0, hc⟩ := List.length_eq_one.mp (h1 hb)
      have h0 : c0 < i := hch c0 (by rw [hc]; simp)
      rw [Value.backwardNode]
      split_ifs with hpl hml hel hpw
      · exact absurd (Or.inl hpl) ha
      · exact absurd (Or.inr hml) ha
      · rw [getGrad_update_grad, if_neg (fun h => by rw [hc] at h; simp at h; omega)]
      · rw [getGrad_update_grad, if_neg (fun h => by rw [hc] at h; simp at h; omega)]
      · rfl
    · rw [Value.backwardNode]
      split_ifs with hpl hml hel hpw
      · exact absurd (Or.inl hpl) ha
      · exact absurd (Or.inr hml) ha
      · exact absurd (Or.inl hel) hb
      · exact absurd (Or.inr hpw) hb
      · rfl

theorem getGrad_walk_ge (F : FloatOps α) (k : Nat) (L : List Nat) :
    ∀ g : Graph α,
      (∀ i, ∀ u ∈ getChildren g i, u < i) →
      (∀ i, getOp g i = "+" ∨ getOp g i = "*" → (getChildren g i).length = 2) →
      (∀ i, (getOp g i = "exp" ∨ startsWithTag (getOp g i) "pow(" = true) →
        (getChildren g i).length = 1) →
      (∀ t ∈ L, t ≤ k) →
      getGrad (L.foldl (fun gr n => Value.backwardNode F gr n) g) k = getGrad g k := by
  induction L with
  | nil => intro g _ _ _ _; rfl
  | cons t L ih =>
    intro g hch h2 h1 hL
    rw [List.foldl_cons, ih]
    · exact getGrad_backwardNode_ge F g t k (hch t) (h2 t) (h1 t) (hL t (by simp))
    · intro i
      rw [getChildren_backwardNode]
      exact hch i
    · intro i
      rw [getChildren_backwardNode, getOp_backwardNode]
      exact h2 i
    · intro i
      rw [getChildren_backwardNode, getOp_backwardNode]
      exact h1 i
    · intro u hu
      exact hL u (by simp [hu])

/-! ### Consequences of well-formedness, and bounds on the DFS -/

theorem wf_children_lt (g : Graph α) (hwf : WF g) :
    ∀ i, ∀ u ∈ getChildren g i, u < i := by
  intro i
  by_cases h : i < g.length
  · exact (hwf i h).1
  · rw [getChildren, getRaw_out g i (Nat.le_of_not_lt h)]
    intro u hu
    simp [defaultRaw] at hu

theorem wf_arity2 (g : Graph α) (hwf : WF g) :
    ∀ i, getOp g i = "+" ∨ getOp g i = "*" → (getChildren g i).length = 2 := by
  intro i hop
  by_cases h : i < g.length
  · exact (hwf i h).2.1 hop
  · rw [getOp, getRaw_out g i (Nat.le_of_not_lt h)] at hop
    rcases hop with hop | hop <;> simp [defaultRaw] at hop

theorem wf_arity1 (g : Graph α) (hwf : WF g) :
    ∀ i, (getOp g i = "exp" ∨ startsWithTag (getOp g i) "pow(" = true) →
      (getChildren g i).length = 1 := by
  intro i hop
  by_cases h : i < g.length
  · exact (hwf i h).2.2 hop
  · rw [getOp, getRaw_out g i (Nat.le_of_not_lt h)] at hop
    rcases hop with hop | hop
    · simp [defaultRaw] at hop
    · rw [show (defaultRaw : RawValue α).op = "" from rfl] at hop
      exact absurd hop (by decide)

theorem mem_pushChildren (cs : List Nat) :
    ∀ (vis st : List Nat) (x : Nat), x ∈ pushChildren vis cs st → x ∈ cs ∨ x ∈ st := by
  induction cs with
  | nil => intro vis st x hx; exact Or.inr hx
  | cons c cs ih =>
    intro vis st x hx
    rw [pushChildren, List.foldl_cons] at hx
    rcases ih vis _ x hx with h | h
    · exact Or.inl (List.mem_cons_of_mem _ h)
    · by_cases hv : vis.contains c = true
      · rw [if_pos hv] at h
        exact Or.inr h
      · rw [if_neg hv] at h
        rcases List.mem_cons.mp h with rfl | h
        · exact Or.inl (List.mem_cons_self _ _)
        · exact Or.inr h

theorem topoLoop_le (g : Graph α) (B : Nat)
    (hch : ∀ i, ∀ u ∈ getChildren g i, u < i) :
    ∀ (fuel : Nat) (stack vis topo : List Nat),
      (∀ x ∈ stack, x ≤ B) → (∀ x ∈ topo, x ≤ B) →
      ∀ x ∈ topoLoop g fuel stack vis topo, x ≤ B := by
  intro fuel
  induction fuel with
  | zero => intro stack vis topo _ ht x hx; exact ht x hx
  | succ fuel ih =>
    intro stack vis topo hs ht x hx
    cases stack with
    | nil => exact ht x hx
    | cons node rest =>
      rw [topoLoop] at hx
      by_cases hv : vis.contains node = true
      · rw [if_pos hv] at hx
        refine ih rest vis (topo ++ [node]) (fun y hy => hs y (List.mem_cons_of_mem _ hy))
          (fun y hy => ?_) x hx
        rcases List.mem_append.mp hy with h | h
        · exact ht y h
        · rw [List.mem_singleton.mp h]
          exact hs node (List.mem_cons_self _ _)
      · rw [if_neg hv] at hx
        refine ih _ _ topo (fun y hy => ?_) ht x hx
        rcases mem_pushChildren _ _ _ y hy with h | h
        · exact le_of_lt (lt_of_lt_of_le (hch node y h) (hs node (List.mem_cons_self _ _)))
        · exact hs y h

theorem topoSort_le (g : Graph α) (root : Nat)
    (hch : ∀ i, ∀ u ∈ getChildren g i, u < i) :
    ∀ x ∈ topoSort g root, x ≤ root := by
  refine topoLoop_le g root hch _ [root] [] [] (fun y hy => ?_) (fun y hy => by simp at hy)
  rw [List.mem_singleton.mp hy]

/-! ### The DFS depends only on the children structure -/

theorem topoLoop_congr (g g' : Graph α)
    (hch : ∀ n, getChildren g' n = getChildren g n) :
    ∀ (fuel : Nat) (st vis topo : List Nat),
      topoLoop g' fuel st vis topo = topoLoop g fuel st vis topo := by
  intro fuel
  induction fuel with
  | zero => intro st vis topo; rfl
  | succ fuel ih =>
    intro st vis topo
    cases st with
    | nil => rfl
    | cons node rest =>
      rw [topoLoop, topoLoop, hch node]
      by_cases hv : vis.contains node = true
      · rw [if_pos hv, if_pos hv, ih]
      · rw [if_neg hv, if_neg hv, ih]

theorem maxChildren_congr (g g' : Graph α) (hlen : g'.length = g.length)
    (hch : ∀ n, getChildren g' n = getChildren g n) :
    maxChildren g' = maxChildren g := by
  rw [maxChildren, maxChildren, hlen]
  simp only [hch]

theorem topoSort_congr (g g' : Graph α) (hlen : g'.length = g.length)
    (hch : ∀ n, getChildren g' n = getChildren g n) (root : Nat) :
    topoSort g' root = topoSort g root := by
  rw [topoSort, topoSort, backFuel, backFuel, maxChildren_congr g g' hlen hch,
    topoLoop_congr g g' hch]

/-! ### Gradient updates are additive: a shift of one initial gradient
survives the backward walk unchanged -/

theorem update_grad_pair (g g' : Graph α) (u j : Nat) (a c : α)
    (hlen : g'.length = g.length)
    (hj : getGrad g' j = getGrad g j + c)
    (hgt : ∀ k, j < k → getGrad g' k = getGrad g k) :
    getGrad (Value.update_grad g' u a) j = getGrad (Value.update_grad g u a) j + c
    ∧ ∀ k, j < k →
        getGrad (Value.update_grad g' u a) k = getGrad (Value.update_grad g u a) k := by
  constructor
  · rw [getGrad_update_grad, getGrad_update_grad, hlen]
    by_cases hc : j = u ∧ u < g.length
    · rw [if_pos hc, if_pos hc]
      rcases hc with ⟨hju, _⟩
      rw [← hju, hj]
      ring
    · rw [if_neg hc, if_neg hc]
      exact hj
  · intro k hk
    rw [getGrad_update_grad, getGrad_update_grad, hlen]
    by_cases hc : k = u ∧ u < g.length
    · rw [if_pos hc, if_pos hc, hgt u (hc.1 ▸ hk)]
    · rw [if_neg hc, if_neg hc, hgt k hk]

theorem backwardNode_offset (F : FloatOps α) (g g' : Graph α) (t j : Nat) (c : α)
    (hlen : g'.length = g.length)
    (hdata : ∀ k, getData g' k = getData g k)
    (hop : ∀ k, getOp g' k = getOp g k)
    (hchl : ∀ k, getChildren g' k = getChildren g k)
    (hex : ∀ k, getExtra g' k = getExtra g k)
    (hch : ∀ i, ∀ u ∈ getChildren g i, u < i)
    (h2 : ∀ i, getOp g i = "+" ∨ getOp g i = "*" → (getChildren g i).length = 2)
    (h1 : ∀ i, (getOp g i = "exp" ∨ startsWithTag (getOp g i) "pow(" = true) →
      (getChildren g i).length = 1)
    (hj : getGrad g' j = getGrad g j + c)
    (hgt : ∀ k, j < k → getGrad g' k = getGrad g k) :
    getGrad (Value.backwardNode F g' t) j = getGrad (Value.backwardNode F g t) j + c
    ∧ ∀ k, j < k →
        getGrad (Value.backwardNode F g' t) k = getGrad (Value.backwardNode F g t) k := by
  rcases Nat.lt_or_ge j t with hjt | htj
  · have hg : getGrad g' t = getGrad g t := hgt t hjt
    rw [Value.backwardNode, Value.backwardNode]
    simp only [hop, hchl, hex, hg, getData_update_grad, hdata]
    split_ifs with hA hM hE hP
    · have p1 := update_grad_pair g g' ((getChildren g t).getD 0 0) j (getGrad g t) c
        hlen hj hgt
      exact update_grad_pair _ _ ((getChildren g t).getD 1 0) j (getGrad g t) c
        (by rw [length_update_grad, length_update_grad, hlen]) p1.1 p1.2
    · have p1 := update_grad_pair g g' ((getChildren g t).getD 0 0) j
        (getGrad g t * getData g ((getChildren g t).getD 1 0)) c hlen hj hgt
      exact update_grad_pair _ _ ((getChildren g t).getD 1 0) j
        (getGrad g t * getData g ((getChildren g t).getD 0 0)) c
        (by rw [length_update_grad, length_update_grad, hlen]) p1.1 p1.2
    · exact update_grad_pair g g' ((getChildren g t).getD 0 0) j
        (getGrad g t * getData g t) c hlen hj hgt
    · exact update_grad_pair g g' ((getChildren g t).getD 0 0) j
        (getGrad g t * getExtra g t * F.powf (getData g ((getChildren g t).getD 0 0))
          (getExtra g t - 1)) c hlen hj hgt
    · exact ⟨hj, hgt⟩
  · have hch' : ∀ u ∈ getChildren g' t, u < t := by rw [hchl]; exact hch t
    have h2' : getOp g' t = "+" ∨ getOp g' t = "*" → (getChildren g' t).length = 2 := by
      rw [hop, hchl]; exact h2 t
    have h1' : (getOp g' t = "exp" ∨ startsWithTag (getOp g' t) "pow(" = true) →
        (getChildren g' t).length = 1 := by
      rw [hop, hchl]; exact h1 t
    constructor
    · rw [getGrad_backwardNode_ge F g' t j hch' h2' h1' htj,
        getGrad_backwardNode_ge F g t j (hch t) (h2 t) (h1 t) htj]
      exact hj
    · intro k hk
      rw [getGrad_backwardNode_ge F g' t k hch' h2' h1' (le_trans htj (le_of_lt hk)),
        getGrad_backwardNode_ge F g t k (hch t) (h2 t) (h1 t)
          (le_trans htj (le_of_lt hk))]
      exact hgt k hk

theorem walk_offset (F : FloatOps α) (j : Nat) (c : α) (L : List Nat) :
    ∀ g g' : Graph α,
      g'.length = g.length →
      (∀ k, getData g' k = getData g k) →
      (∀ k, getOp g' k = getOp g k) →
      (∀ k, getChildren g' k = getChildren g k) →
      (∀ k, getExtra g' k = getExtra g k) →
      (∀ i, ∀ u ∈ getChildren g i, u < i) →
      (∀ i, getOp g i = "+" ∨ getOp g i = "*" → (getChildren g i).length = 2) →
      (∀ i, (getOp g i = "exp" ∨ startsWithTag (getOp g i) "pow(" = true) →
        (getChildren g i).length = 1) →
      getGrad g' j = getGrad g j + c →
      (∀ k, j < k → getGrad g' k = getGrad g k) →
      getGrad (L.foldl (fun gr n => Value.backwardNode F gr n) g') j
          = getGrad (L.foldl (fun gr n => Value.backwardNode F gr n) g) j + c
      ∧ ∀ k, j < k →
          getGrad (L.foldl (fun gr n => Value.backwardNode F gr n) g') k
            = getGrad (L.foldl (fun gr n => Value.backwardNode F gr n) g) k := by
  induction L with
  | nil => intro g g' _ _ _ _ _ _ _ _ hj hgt; exact ⟨hj, hgt⟩
  | cons t L ih =>
    intro g g' hlen hdata hop hchl hex hch h2 h1 hj hgt
    rw [List.foldl_cons, List.foldl_cons]
    have step := backwardNode_offset F g g' t j c hlen hdata hop hchl hex hch h2 h1 hj hgt
    exact ih (Value.backwardNode F g t) (Value.backwardNode F g' t)
      (by rw [length_backwardNode, length_backwardNode, hlen])
      (fun k => by rw [getData_backwardNode, getData_backwardNode, hdata])
      (fun k => by rw [getOp_backwardNode, getOp_backwardNode, hop])
      (fun k => by rw [getChildren_backwardNode, getChildren_backwardNode, hchl])
      (fun k => by rw [getExtra_backwardNode, getExtra_backwardNode, hex])
      (fun i => by rw [getChildren_backwardNode]; exact hch i)
      (fun i => by rw [getChildren_backwardNode, getOp_backwardNode]; exact h2 i)
      (fun i => by rw [getChildren_backwardNode, getOp_backwardNode]; exact h1 i)
      step.1 step.2

theorem topoLoop_nil (g : Graph α) (fuel : Nat) (vis topo : List Nat) :
    topoLoop g fuel [] vis topo = topo := by
  cases fuel <;> rfl

theorem topoSort_leaf (g : Graph α) (root : Nat) (h : getChildren g root = []) :
    topoSort g root = [root] := by
  rw [topoSort]
  obtain ⟨X, hX⟩ : ∃ X, backFuel g root = X + 1 + 1 :=
    ⟨(root + 2) * (maxChildren g + 2), by rw [backFuel]⟩
  rw [hX, topoLoop, if_neg (by simp), h,
    show pushChildren (root :: []) [] (root :: []) = [root] from rfl,
    topoLoop, if_pos (by simp), topoLoop_nil]
  simp

/-- C6: `backward(root)` overwrites `root`'s gradient to exactly 1
(its value is 1 afterwards, whatever it was before); every other
node's gradient is only *added to* — shifting node `j`'s initial
gradient by `c` shifts its final gradient by exactly `c`; and
`backward` on a childless leaf produces the singleton postorder
`[root]`, sets that gradient to 1 and leaves every other node
untouched. -/
theorem backward_root_seed_and_additivity (F : FloatOps α) (g : Graph α)
    (root j : Nat) (c : α) (hwf : WF g) (hroot : root < g.length)
    (hj : j ≠ root) (hjlen : j < g.length) :
    getGrad (Value.backward F g root) root = 1
    ∧ getGrad (Value.backward F (Value.set_grad g j (getGrad g j + c)) root) j
        = getGrad (Value.backward F g root) j + c
    ∧ (getOp g root = "" → getChildren g root = [] →
        topoSort g root = [root]
        ∧ ∀ k, k ≠ root → getRaw (Value.backward F g root) k = getRaw g k) := by
  have hch := wf_children_lt g hwf
  have h2 := wf_arity2 g hwf
  have h1 := wf_arity1 g hwf
  refine ⟨?_, ?_, ?_⟩
  · rw [Value.backward,
      getGrad_walk_ge F root _ (Value.set_grad g root 1)
        (fun i => by rw [getChildren_set_grad]; exact hch i)
        (fun i => by rw [getChildren_set_grad, getOp_set_grad]; exact h2 i)
        (fun i => by rw [getChildren_set_grad, getOp_set_grad]; exact h1 i)
        (fun t ht => topoSort_le g root hch t (List.mem_reverse.mp ht)),
      getGrad_set_grad, if_pos ⟨rfl, hroot⟩]
  · set g' := Value.set_grad g j (getGrad g j + c) with hg'
    have hlen' : g'.length = g.length := length_set_grad ..
    have hts : topoSort g' root = topoSort g root :=
      topoSort_congr g g' hlen' (fun n => getChildren_set_grad ..) root
    rw [Value.backward, Value.backward, hts]
    have off := walk_offset F j c (topoSort g root).reverse
      (Value.set_grad g root 1) (Value.set_grad g' root 1)
      (by simp only [length_set_grad]; exact hlen')
      (fun k => by simp only [getData_set_grad, hg'])
      (fun k => by simp only [getOp_set_grad, hg'])
      (fun k => by simp only [getChildren_set_grad, hg'])
      (fun k => by simp only [getExtra_set_grad, hg'])
      (fun i => by rw [getChildren_set_grad]; exact hch i)
      (fun i => by rw [getChildren_set_grad, getOp_set_grad]; exact h2 i)
      (fun i => by rw [getChildren_set_grad, getOp_set_grad]; exact h1 i)
      (by
        simp only [getGrad_set_grad]
        rw [if_neg (fun h => hj h.1), if_neg (fun h => hj h.1), hg',
          getGrad_set_grad]
        simp [hjlen])
      (fun k hk => by
        simp only [getGrad_set_grad, hlen']
        by_cases hkr : k = root ∧ root < g.length
        · rw [if_pos hkr, if_pos hkr]
        · rw [if_neg hkr, if_neg hkr, hg', getGrad_set_grad]
          simp [Nat.ne_of_gt hk])
    exact off.1
  · intro hop hch0
    refine ⟨topoSort_leaf g root hch0, fun k hk => ?_⟩
    have hop' : getOp (Value.set_grad g root 1) root = "" := by
      rw [getOp_set_grad]; exact hop
    have hstep : Value.backwardNode F (Value.set_grad g root 1) root
        = Value.set_grad g root 1 := by
      rw [Value.backwardNode, hop']
      simp [startsWithTag]
    rw [Value.backward, topoSort_leaf g root hch0]
    simp only [List.reverse_cons, List.reverse_nil, List.nil_append, List.foldl_cons,
      List.foldl_nil]
    rw [hstep, getRaw_set_grad, if_neg (fun h => hk h.1)]

/-- Witness for the root-seed / additivity / leaf-case theorem at a
concrete two-leaf arena (root node 1, shifted node 0, shift 7). -/
theorem backward_root_seed_and_additivity_witness :
    WF twoLeaves ∧ 1 < twoLeaves.length ∧ (0 : Nat) ≠ 1 ∧ 0 < twoLeaves.length
    ∧ (getGrad (Value.backward ratOps twoLeaves 1) 1 = 1
      ∧ getGrad (Value.backward ratOps
            (Value.set_grad twoLeaves 0 (getGrad twoLeaves 0 + 7)) 1) 0
          = getGrad (Value.backward ratOps twoLeaves 1) 0 + 7
      ∧ (getOp twoLeaves 1 = "" → getChildren twoLeaves 1 = [] →
          topoSort twoLeaves 1 = [1]
          ∧ ∀ k, k ≠ 1 → getRaw (Value.backward ratOps twoLeaves 1) k
              = getRaw twoLeaves k)) :=
  ⟨by decide, by decide, by decide, by decide,
    backward_root_seed_and_additivity ratOps twoLeaves 1 0 7 (by decide) (by decide)
      (by decide) (by decide)⟩

/-! ### Graph construction is append-only -/

theorem getRaw_append (g : Graph α) (r : RawValue α) (k : Nat) (hk : k < g.length) :
    getRaw (g ++ [r]) k = getRaw g k := by
  simp [getRaw, List.getD_eq_getElem?_getD, List.getElem?_append_left hk]

theorem new_for_op_extends (g : Graph α) (d : α) (s : String) (cs : List Nat) (p : α) :
    g.length ≤ (Value.new_for_op g d s cs p).1.length
    ∧ ∀ k < g.length, getRaw (Value.new_for_op g d s cs p).1 k = getRaw g k := by
  refine ⟨by simp [Value.new_for_op], fun k hk => ?_⟩
  rw [Value.new_for_op]
  exact getRaw_append g _ k hk

theorem new_extends (g : Graph α) (d : α) :
    g.length ≤ (Value.new g d).1.length
    ∧ ∀ k < g.length, getRaw (Value.new g d).1 k = getRaw g k := by
  refine ⟨by simp [Value.new], fun k hk => ?_⟩
  rw [Value.new]
  exact getRaw_append g _ k hk

theorem add_extends (g : Graph α) (i j : Nat) :
    g.length ≤ (Value.add g i j).1.length
    ∧ ∀ k < g.length, getRaw (Value.add g i j).1 k = getRaw g k :=
  new_for_op_extends ..

theorem mul_extends (g : Graph α) (i j : Nat) :
    g.length ≤ (Value.mul g i j).1.length
    ∧ ∀ k < g.length, getRaw (Value.mul g i j).1 k = getRaw g k :=
  new_for_op_extends ..

theorem pow_extends (F : FloatOps α) (g : Graph α) (i : Nat) (p : α) :
    g.length ≤ (Value.pow F g i p).1.length
    ∧ ∀ k < g.length, getRaw (Value.pow F g i p).1 k = getRaw g k :=
  new_for_op_extends ..

theorem exp_extends (F : FloatOps α) (g : Graph α) (i : Nat) :
    g.length ≤ (Value.exp F g i).1.length
    ∧ ∀ k < g.length, getRaw (Value.exp F g i).1 k = getRaw g k :=
  new_for_op_extends ..

theorem extends_trans (g1 g2 g3 : Graph α)
    (h12 : g1.length ≤ g2.length ∧ ∀ k < g1.length, getRaw g2 k = getRaw g1 k)
    (h23 : g2.length ≤ g3.length ∧ ∀ k < g2.length, getRaw g3 k = getRaw g2 k) :
    g1.length ≤ g3.length ∧ ∀ k < g1.length, getRaw g3 k = getRaw g1 k :=
  ⟨le_trans h12.1 h23.1,
   fun k hk => (h23.2 k (lt_of_lt_of_le hk h12.1)).trans (h12.2 k hk)⟩

theorem neg_extends (g : Graph α) (i : Nat) :
    g.length ≤ (Value.neg g i).1.length
    ∧ ∀ k < g.length, getRaw (Value.neg g i).1 k = getRaw g k := by
  rw [show Value.neg g i = Value.mul (Value.new g (-1)).1 i (Value.new g (-1)).2 from rfl]
  exact extends_trans _ _ _ (new_extends g (-1)) (mul_extends ..)

theorem sub_extends (g : Graph α) (i j : Nat) :
    g.length ≤ (Value.sub g i j).1.length
    ∧ ∀ k < g.length, getRaw (Value.sub g i j).1 k = getRaw g k := by
  rw [show Value.sub g i j
    = Value.add (Value.neg g j).1 i (Value.neg g j).2 from rfl]
  exact extends_trans _ _ _ (neg_extends g j) (add_extends ..)

theorem div_extends (F : FloatOps α) (g : Graph α) (i j : Nat) :
    g.length ≤ (Value.div F g i j).1.length
    ∧ ∀ k < g.length, getRaw (Value.div F g i j).1 k = getRaw g k := by
  rw [show Value.div F g i j
    = Value.mul (Value.pow F g j (-1)).1 i (Value.pow F g j (-1)).2 from rfl]
  exact extends_trans _ _ _ (pow_extends F g j (-1)) (mul_extends ..)

theorem tanh_extends (F : FloatOps α) (g : Graph α) (i : Nat) :
    g.length ≤ (Value.tanh F g i).1.length
    ∧ ∀ k < g.length, getRaw (Value.tanh F g i).1 k = getRaw g k := by
  obtain ⟨gA, tA, hA⟩ : ∃ a b, Value.new g (2 : α) = (a, b) := ⟨_, _, rfl⟩
  obtain ⟨gB, tB, hB⟩ : ∃ a b, Value.mul gA i tA = (a, b) := ⟨_, _, rfl⟩
  obtain ⟨gC, tC, hC⟩ : ∃ a b, Value.exp F gB tB = (a, b) := ⟨_, _, rfl⟩
  obtain ⟨gD, tD, hD⟩ : ∃ a b, Value.new gC (1 : α) = (a, b) := ⟨_, _, rfl⟩
  obtain ⟨gE, tE, hE⟩ : ∃ a b, Value.sub gD tC tD = (a, b) := ⟨_, _, rfl⟩
  obtain ⟨gG, tG, hG⟩ : ∃ a b, Value.new gE (1 : α) = (a, b) := ⟨_, _, rfl⟩
  obtain ⟨gH, tH, hH⟩ : ∃ a b, Value.add gG tC tG = (a, b) := ⟨_, _, rfl⟩
  have htanh : Value.tanh F g i = Value.div F gH tE tH := by
    simp only [Value.tanh, hA, hB, hC, hD, hE, hG, hH]
  have eA : g.length ≤ gA.length ∧ ∀ k < g.length, getRaw gA k = getRaw g k := by
    have h := new_extends g (2 : α); rw [hA] at h; exact h
  have eB : gA.length ≤ gB.length ∧ ∀ k < gA.length, getRaw gB k = getRaw gA k := by
    have h := mul_extends gA i tA; rw [hB] at h; exact h
  have eC : gB.length ≤ gC.length ∧ ∀ k < gB.length, getRaw gC k = getRaw gB k := by
    have h := exp_extends F gB tB; rw [hC] at h; exact h
  have eD : gC.length ≤ gD.length ∧ ∀ k < gC.length, getRaw gD k = getRaw gC k := by
    have h := new_extends gC (1 : α); rw [hD] at h; exact h
  have eE : gD.length ≤ gE.length ∧ ∀ k < gD.length, getRaw gE k = getRaw gD k := by
    have h := sub_extends gD tC tD; rw [hE] at h; exact h
  have eG : gE.length ≤ gG.length ∧ ∀ k < gE.length, getRaw gG k = getRaw gE k := by
    have h := new_extends gE (1 : α); rw [hG] at h; exact h
  have eH : gG.length ≤ gH.length ∧ ∀ k < gG.length, getRaw gH k = getRaw gG k := by
    have h := add_extends gG tC tG; rw [hH] at h; exact h
  rw [htanh]
  exact extends_trans _ _ _ eA (extends_trans _ _ _ eB (extends_trans _ _ _ eC
    (extends_trans _ _ _ eD (extends_trans _ _ _ eE (extends_trans _ _ _ eG
      (extends_trans _ _ _ eH (div_extends F gH tE tH)))))))

/-- C8: `backward` mutates only gradient fields — data, operation tag,
operand list, auxiliary and label of every node, and the arena length,
are unchanged — and every graph-building operation only appends: all
pre-existing nodes (operand lists included) are untouched. -/
theorem backward_frame_and_append_only (F : FloatOps α) (g : Graph α)
    (root i j k : Nat) (p d : α) (s : String) (cs : List Nat) (hk : k < g.length) :
    (getData (Value.backward F g root) k = getData g k
      ∧ getOp (Value.backward F g root) k = getOp g k
      ∧ getChildren (Value.backward F g root) k = getChildren g k
      ∧ getExtra (Value.backward F g root) k = getExtra g k
      ∧ getLabel (Value.backward F g root) k = getLabel g k
      ∧ (Value.backward F g root).length = g.length)
    ∧ getRaw (Value.add g i j).1 k = getRaw g k
    ∧ getRaw (Value.mul g i j).1 k = getRaw g k
    ∧ getRaw (Value.neg g i).1 k = getRaw g k
    ∧ getRaw (Value.sub g i j).1 k = getRaw g k
    ∧ getRaw (Value.pow F g i p).1 k = getRaw g k
    ∧ getRaw (Value.div F g i j).1 k = getRaw g k
    ∧ getRaw (Value.exp F g i).1 k = getRaw g k
    ∧ getRaw (Value.tanh F g i).1 k = getRaw g k
    ∧ getRaw (Value.new g d).1 k = getRaw g k
    ∧ getRaw (Value.new_for_op g d s cs p).1 k = getRaw g k := by
  refine ⟨⟨?_, ?_, ?_, ?_, ?_, ?_⟩, (add_extends g i j).2 k hk,
    (mul_extends g i j).2 k hk, (neg_extends g i).2 k hk, (sub_extends g i j).2 k hk,
    (pow_extends F g i p).2 k hk, (div_extends F g i j).2 k hk,
    (exp_extends F g i).2 k hk, (tanh_extends F g i).2 k hk,
    (new_extends g d).2 k hk, (new_for_op_extends g d s cs p).2 k hk⟩
  · rw [Value.backward, getData_walk, getData_set_grad]
  · rw [Value.backward, getOp_walk, getOp_set_grad]
  · rw [Value.backward, getChildren_walk, getChildren_set_grad]
  · rw [Value.backward, getExtra_walk, getExtra_set_grad]
  · rw [Value.backward, getLabel_walk, getLabel_set_grad]
  · rw [Value.backward, length_walk, length_set_grad]

/-- Witness for the frame/append-only theorem at the two-leaf arena. -/
theorem backward_frame_and_append_only_witness :
    0 < twoLeaves.length
    ∧ ((getData (Value.backward ratOps twoLeaves 1) 0 = getData twoLeaves 0
      ∧ getOp (Value.backward ratOps twoLeaves 1) 0 = getOp twoLeaves 0
      ∧ getChildren (Value.backward ratOps twoLeaves 1) 0 = getChildren twoLeaves 0
      ∧ getExtra (Value.backward ratOps twoLeaves 1) 0 = getExtra twoLeaves 0
      ∧ getLabel (Value.backward ratOps twoLeaves 1) 0 = getLabel twoLeaves 0
      ∧ (Value.backward ratOps twoLeaves 1).length = twoLeaves.length)
    ∧ getRaw (Value.add twoLeaves 0 1).1 0 = getRaw twoLeaves 0
    ∧ getRaw (Value.mul twoLeaves 0 1).1 0 = getRaw twoLeaves 0
    ∧ getRaw (Value.neg twoLeaves 0).1 0 = getRaw twoLeaves 0
    ∧ getRaw (Value.sub twoLeaves 0 1).1 0 = getRaw twoLeaves 0
    ∧ getRaw (Value.pow ratOps twoLeaves 0 2).1 0 = getRaw twoLeaves 0
    ∧ getRaw (Value.div ratOps twoLeaves 0 1).1 0 = getRaw twoLeaves 0
    ∧ getRaw (Value.exp ratOps twoLeaves 0).1 0 = getRaw twoLeaves 0
    ∧ getRaw (Value.tanh ratOps twoLeaves 0).1 0 = getRaw twoLeaves 0
    ∧ getRaw (Value.new twoLeaves 4).1 0 = getRaw twoLeaves 0
    ∧ getRaw (Value.new_for_op twoLeaves 4 "+" [0, 1] 2).1 0 = getRaw twoLeaves 0) :=
  ⟨by decide,
    backward_frame_and_append_only ratOps twoLeaves 1 0 1 0 2 4 "+" [0, 1] (by decide)⟩

/-- C9: `update_data(d)` adds `d` to the stored value (it does not
replace it), so the gradient-descent caller must pass the delta
`-lr * grad`; doing so leaves `data - lr * grad` in the node.  All
other nodes are untouched. -/
theorem update_data_additive (g : Graph α) (i : Nat) (d lr : α) (hi : i < g.length) :
    getData (Value.update_data g i d) i = getData g i + d
    ∧ getData (Value.update_data g i (-(lr * getGrad g i))) i
        = getData g i - lr * getGrad g i
    ∧ ∀ k, k ≠ i → getRaw (Value.update_data g i d) k = getRaw g k := by
  refine ⟨?_, ?_, fun k hk => ?_⟩
  · rw [getData, getRaw_update_data, if_pos ⟨rfl, hi⟩]
    rfl
  · rw [getData, getRaw_update_data, if_pos ⟨rfl, hi⟩]
    show getData g i + -(lr * getGrad g i) = _
    ring
  · rw [getRaw_update_data, if_neg (fun h => hk h.1)]

/-- Witness for the additive `update_data` theorem. -/
theorem update_data_additive_witness :
    0 < twoLeaves.length
    ∧ (getData (Value.update_data twoLeaves 0 2) 0 = getData twoLeaves 0 + 2
      ∧ getData (Value.update_data twoLeaves 0 (-(5 * getGrad twoLeaves 0))) 0
          = getData twoLeaves 0 - 5 * getGrad twoLeaves 0
      ∧ ∀ k, k ≠ 0 → getRaw (Value.update_data twoLeaves 0 2) k = getRaw twoLeaves k) :=
  ⟨by decide, update_data_additive twoLeaves 0 2 5 (by decide)⟩

/-! ### Neuron.forward and input-length bounds -/

theorem forwardLoop_isSome :
    ∀ (w x : List Nat) (g : Graph α) (y : Nat),
      (forwardLoop g y w x).isSome = true ↔ w.length ≤ x.length := by
  intro w
  induction w with
  | nil =>
    intro x g y
    simp [forwardLoop]
  | cons wi ws ih =>
    intro x g y
    cases x with
    | nil => simp [forwardLoop]
    | cons xi xs =>
      rw [forwardLoop]
      constructor
      · intro h
        simp only [List.length_cons, Nat.succ_le_succ_iff]
        exact ((ih xs _ _).mp h)
      · intro h
        exact (ih xs _ _).mpr (Nat.succ_le_succ_iff.mp h)

/-- C10: `Neuron::forward` indexes the input sequence at positions
`0..w.len()`.  It returns normally iff the inputs are at least as long
as the weights; a shorter input makes `x[i]` go out of bounds (a Rust
panic, modelled by `none`). -/
theorem neuron_forward_in_bounds (F : FloatOps α) (g : Graph α) (n : Neuron)
    (x : List Nat) :
    (Neuron.forward F g n x).isSome = true ↔ n.w.length ≤ x.length := by
  rw [Neuron.forward]
  obtain ⟨g0, y0, h0⟩ : ∃ a b, Value.new g (getData g n.b) = (a, b) := ⟨_, _, rfl⟩
  rw [h0]
  show (match forwardLoop g0 y0 n.w x with
    | none => none
    | some (g1, y1) => some (Value.tanh F g1 y1)).isSome = true ↔ n.w.length ≤ x.length
  have hiff := forwardLoop_isSome n.w x g0 y0
  cases hfl : forwardLoop g0 y0 n.w x with
  | none =>
    rw [hfl] at hiff
    simpa using hiff
  | some r =>
    rw [hfl] at hiff
    obtain ⟨g1, y1⟩ := r
    simpa using hiff

/-- C3: diamond sharing.  For a fresh leaf `a` (gradient 0), building
`d = mul(a, add(a, a))` — `a` referenced three times — and running
`backward` on `d` leaves `a`'s gradient at `4 * a.value`, the analytic
derivative of `2a²`. -/
theorem diamond_sharing_grad (F : FloatOps α) (a0 : α) :
    let la := Value.new ([] : Graph α) a0
    let ls := Value.add la.1 la.2 la.2
    let ld := Value.mul ls.1 la.2 ls.2
    getGrad (Value.backward F ld.1 ld.2) la.2 = 4 * a0 := by
  intro la ls ld
  show getGrad (Value.backward F
      ((Value.mul ((Value.add ((Value.new ([] : Graph α) a0).1) 0 0).1) 0 1).1) 2) 0
    = 4 * a0
  have ht : topoSort
      ((Value.mul ((Value.add ((Value.new ([] : Graph α) a0).1) 0 0).1) 0 1).1) 2
      = [0, 0, 1, 0, 2] := rfl
  rw [Value.backward, ht]
  simp [Value.backwardNode, Value.new, Value.add, Value.mul, startsWithTag,
    Value.new_for_op, Value.set_grad, Value.update_grad, getGrad, getRaw, getData,
    getChildren, getOp, getExtra, List.getD, List.set]
  ring


/-- C2 (code bug): in `r = add(q, p)`, `p = mul(q, c)`, `q = add(a, b)`
(all leaves 1), node `q` (id 3) is pushed twice before being visited,
so the "topological sequence" emits `q` twice; `_backward` then runs
twice on `q`, and it runs once before `p` (one of `q`'s consumers) has
contributed, so leaf `a` ends with gradient 3 although the analytic
dr/da = 1 + c.value = 2.  This refutes both the exactly-once and the
consumers-first parts of the claim. -/
theorem topo_duplicate_and_double_count :
    topoSort dagQP 5 = [2, 1, 0, 3, 4, 3, 5]
    ∧ (topoSort dagQP 5).count 3 = 2
    ∧ getGrad (Value.backward ratOps dagQP 5) 0 = 3 := by
  refine ⟨rfl, by decide, ?_⟩
  rw [Value.backward, show topoSort dagQP 5 = [2, 1, 0, 3, 4, 3, 5] from rfl]
  simp [dagQP, Value.backwardNode, Value.new, Value.add, Value.mul, startsWithTag,
    Value.new_for_op, Value.set_grad, Value.update_grad, getGrad, getRaw, getData,
    getChildren, getOp, getExtra, List.getD, List.set]
  norm_num


/-- C1 (code bug): `Neuron::forward` starts its accumulator from
`Value::new(self.b.get_data())` — a fresh leaf holding a *copy* of the
bias's data — so the bias node itself is never wired into the output
graph.  For a 1-input neuron the bias node (id 1) is absent from the
topological sequence of the output, and `zero_grad` followed by
`backward` leaves the bias gradient at 0, although the analytic
∂out/∂bias = 1 - tanh(...)² is never 0. -/
theorem neuron_bias_grad_zero (F : FloatOps α) (w0 b0 x0 : α) :
    let lw := Value.new ([] : Graph α) w0
    let lb := Value.new lw.1 b0
    let lx := Value.new lb.1 x0
    let n : Neuron := ⟨[lw.2], lb.2⟩
    let fw := (Neuron.forward F lx.1 n [lx.2]).getD ([], 0)
    (Neuron.forward F lx.1 n [lx.2]).isSome = true
    ∧ lb.2 ∉ topoSort fw.1 fw.2
    ∧ getGrad (Value.backward F (zeroGrad fw.1 n.parameters) fw.2) lb.2 = 0 := by
  intro lw lb lx n fw
  have hsome : (Neuron.forward F lx.1 n [lx.2]).isSome = true := by
    show (Neuron.forward F
      [{ data := w0, grad := 0, op := "", label := "", children := [], extra := 0 },
        { data := b0, grad := 0, op := "", label := "", children := [], extra := 0 },
        { data := x0, grad := 0, op := "", label := "", children := [], extra := 0 }] ⟨[0], 1⟩ [2]).isSome = true
    simp [Neuron.forward, forwardLoop, Value.tanh, Value.div, Value.sub,
      Value.neg, Value.pow, Value.exp, Value.mul, Value.add, Value.new,
      Value.new_for_op, getData, getRaw, List.getD]
  have h1 : fw =
      ([{ data := w0, grad := 0, op := "", label := "", children := [], extra := 0 },
        { data := b0, grad := 0, op := "", label := "", children := [], extra := 0 },
        { data := x0, grad := 0, op := "", label := "", children := [], extra := 0 },
        { data := b0, grad := 0, op := "", label := "", children := [], extra := 0 },
        { data := w0 * x0, grad := 0, op := "*", label := "", children := [0, 2], extra := 0 },
        { data := b0 + w0 * x0, grad := 0, op := "+", label := "", children := [3, 4], extra := 0 },
        { data := 2, grad := 0, op := "", label := "", children := [], extra := 0 },
        { data := (b0 + w0 * x0) * 2, grad := 0, op := "*", label := "", children := [5, 6], extra := 0 },
        { data := F.fexp ((b0 + w0 * x0) * 2), grad := 0, op := "exp", label := "", children := [7], extra := 0 },
        { data := 1, grad := 0, op := "", label := "", children := [], extra := 0 },
        { data := -1, grad := 0, op := "", label := "", children := [], extra := 0 },
        { data := -1, grad := 0, op := "*", label := "", children := [9, 10], extra := 0 },
        { data := F.fexp ((b0 + w0 * x0) * 2) + -1, grad := 0, op := "+", label := "", children := [8, 11], extra := 0 },
        { data := 1, grad := 0, op := "", label := "", children := [], extra := 0 },
        { data := F.fexp ((b0 + w0 * x0) * 2) + 1, grad := 0, op := "+", label := "", children := [8, 13], extra := 0 },
        { data := F.powf (F.fexp ((b0 + w0 * x0) * 2) + 1) (-1), grad := 0, op := "pow(" ++ F.fmt (-1) ++ ")", label := "", children := [14], extra := -1 },
        { data := (F.fexp ((b0 + w0 * x0) * 2) + -1) * F.powf (F.fexp ((b0 + w0 * x0) * 2) + 1) (-1), grad := 0, op := "*", label := "", children := [12, 15], extra := 0 }],
       16) := by
    show (Neuron.forward F
      [{ data := w0, grad := 0, op := "", label := "", children := [], extra := 0 },
        { data := b0, grad := 0, op := "", label := "", children := [], extra := 0 },
        { data := x0, grad := 0, op := "", label := "", children := [], extra := 0 }] ⟨[0], 1⟩ [2]).getD ([], 0) =
      ([{ data := w0, grad := 0, op := "", label := "", children := [], extra := 0 },
        { data := b0, grad := 0, op := "", label := "", children := [], extra := 0 },
        { data := x0, grad := 0, op := "", label := "", children := [], extra := 0 },
        { data := b0, grad := 0, op := "", label := "", children := [], extra := 0 },
        { data := w0 * x0, grad := 0, op := "*", label := "", children := [0, 2], extra := 0 },
        { data := b0 + w0 * x0, grad := 0, op := "+", label := "", children := [3, 4], extra := 0 },
        { data := 2, grad := 0, op := "", label := "", children := [], extra := 0 },
        { data := (b0 + w0 * x0) * 2, grad := 0, op := "*", label := "", children := [5, 6], extra := 0 },
        { data := F.fexp ((b0 + w0 * x0) * 2), grad := 0, op := "exp", label := "", children := [7], extra := 0 },
        { data := 1, grad := 0, op := "", label := "", children := [], extra := 0 },
        { data := -1, grad := 0, op := "", label := "", children := [], extra := 0 },
        { data := -1, grad := 0, op := "*", label := "", children := [9, 10], extra := 0 },
        { data := F.fexp ((b0 + w0 * x0) * 2) + -1, grad := 0, op := "+", label := "", children := [8, 11], extra := 0 },
        { data := 1, grad := 0, op := "", label := "", children := [], extra := 0 },
        { data := F.fexp ((b0 + w0 * x0) * 2) + 1, grad := 0, op := "+", label := "", children := [8, 13], extra := 0 },
        { data := F.powf (F.fexp ((b0 + w0 * x0) * 2) + 1) (-1), grad := 0, op := "pow(" ++ F.fmt (-1) ++ ")", label := "", children := [14], extra := -1 },
        { data := (F.fexp ((b0 + w0 * x0) * 2) + -1) * F.powf (F.fexp ((b0 + w0 * x0) * 2) + 1) (-1), grad := 0, op := "*", label := "", children := [12, 15], extra := 0 }],
       16)
    simp [Neuron.forward, forwardLoop, Value.tanh, Value.div, Value.sub,
      Value.neg, Value.pow, Value.exp, Value.mul, Value.add, Value.new,
      Value.new_for_op, getData, getRaw, List.getD]
  refine ⟨hsome, ?_, ?_⟩
  · rw [h1]
    show (1 : Nat) ∉ topoSort
      ([{ data := w0, grad := 0, op := "", label := "", children := [], extra := 0 },
        { data := b0, grad := 0, op := "", label := "", children := [], extra := 0 },
        { data := x0, grad := 0, op := "", label := "", children := [], extra := 0 },
        { data := b0, grad := 0, op := "", label := "", children := [], extra := 0 },
        { data := w0 * x0, grad := 0, op := "*", label := "", children := [0, 2], extra := 0 },
        { data := b0 + w0 * x0, grad := 0, op := "+", label := "", children := [3, 4], extra := 0 },
        { data := 2, grad := 0, op := "", label := "", children := [], extra := 0 },
        { data := (b0 + w0 * x0) * 2, grad := 0, op := "*", label := "", children := [5, 6], extra := 0 },
        { data := F.fexp ((b0 + w0 * x0) * 2), grad := 0, op := "exp", label := "", children := [7], extra := 0 },
        { data := 1, grad := 0, op := "", label := "", children := [], extra := 0 },
        { data := -1, grad := 0, op := "", label := "", children := [], extra := 0 },
        { data := -1, grad := 0, op := "*", label := "", children := [9, 10], extra := 0 },
        { data := F.fexp ((b0 + w0 * x0) * 2) + -1, grad := 0, op := "+", label := "", children := [8, 11], extra := 0 },
        { data := 1, grad := 0, op := "", label := "", children := [], extra := 0 },
        { data := F.fexp ((b0 + w0 * x0) * 2) + 1, grad := 0, op := "+", label := "", children := [8, 13], extra := 0 },
        { data := F.powf (F.fexp ((b0 + w0 * x0) * 2) + 1) (-1), grad := 0, op := "pow(" ++ F.fmt (-1) ++ ")", label := "", children := [14], extra := -1 },
        { data := (F.fexp ((b0 + w0 * x0) * 2) + -1) * F.powf (F.fexp ((b0 + w0 * x0) * 2) + 1) (-1), grad := 0, op := "*", label := "", children := [12, 15], extra := 0 }] : Graph α) 16
    rw [show topoSort
        ([{ data := w0, grad := 0, op := "", label := "", children := [], extra := 0 },
        { data := b0, grad := 0, op := "", label := "", children := [], extra := 0 },
        { data := x0, grad := 0, op := "", label := "", children := [], extra := 0 },
        { data := b0, grad := 0, op := "", label := "", children := [], extra := 0 },
        { data := w0 * x0, grad := 0, op := "*", label := "", children := [0, 2], extra := 0 },
        { data := b0 + w0 * x0, grad := 0, op := "+", label := "", children := [3, 4], extra := 0 },
        { data := 2, grad := 0, op := "", label := "", children := [], extra := 0 },
        { data := (b0 + w0 * x0) * 2, grad := 0, op := "*", label := "", children := [5, 6], extra := 0 },
        { data := F.fexp ((b0 + w0 * x0) * 2), grad := 0, op := "exp", label := "", children := [7], extra := 0 },
        { data := 1, grad := 0, op := "", label := "", children := [], extra := 0 },
        { data := -1, grad := 0, op := "", label := "", children := [], extra := 0 },
        { data := -1, grad := 0, op := "*", label := "", children := [9, 10], extra := 0 },
        { data := F.fexp ((b0 + w0 * x0) * 2) + -1, grad := 0, op := "+", label := "", children := [8, 11], extra := 0 },
        { data := 1, grad := 0, op := "", label := "", children := [], extra := 0 },
        { data := F.fexp ((b0 + w0 * x0) * 2) + 1, grad := 0, op := "+", label := "", children := [8, 13], extra := 0 },
        { data := F.powf (F.fexp ((b0 + w0 * x0) * 2) + 1) (-1), grad := 0, op := "pow(" ++ F.fmt (-1) ++ ")", label := "", children := [14], extra := -1 },
        { data := (F.fexp ((b0 + w0 * x0) * 2) + -1) * F.powf (F.fexp ((b0 + w0 * x0) * 2) + 1) (-1), grad := 0, op := "*", label := "", children := [12, 15], extra := 0 }] : Graph α) 16
      = [13, 6, 2, 0, 4, 3, 5, 7, 8, 14, 15, 10, 9, 11, 12, 16] from rfl]
    decide
  · rw [h1]
    show getGrad (Value.backward F (zeroGrad
      ([{ data := w0, grad := 0, op := "", label := "", children := [], extra := 0 },
        { data := b0, grad := 0, op := "", label := "", children := [], extra := 0 },
        { data := x0, grad := 0, op := "", label := "", children := [], extra := 0 },
        { data := b0, grad := 0, op := "", label := "", children := [], extra := 0 },
        { data := w0 * x0, grad := 0, op := "*", label := "", children := [0, 2], extra := 0 },
        { data := b0 + w0 * x0, grad := 0, op := "+", label := "", children := [3, 4], extra := 0 },
        { data := 2, grad := 0, op := "", label := "", children := [], extra := 0 },
        { data := (b0 + w0 * x0) * 2, grad := 0, op := "*", label := "", children := [5, 6], extra := 0 },
        { data := F.fexp ((b0 + w0 * x0) * 2), grad := 0, op := "exp", label := "", children := [7], extra := 0 },
        { data := 1, grad := 0, op := "", label := "", children := [], extra := 0 },
        { data := -1, grad := 0, op := "", label := "", children := [], extra := 0 },
        { data := -1, grad := 0, op := "*", label := "", children := [9, 10], extra := 0 },
        { data := F.fexp ((b0 + w0 * x0) * 2) + -1, grad := 0, op := "+", label := "", children := [8, 11], extra := 0 },
        { data := 1, grad := 0, op := "", label := "", children := [], extra := 0 },
        { data := F.fexp ((b0 + w0 * x0) * 2) + 1, grad := 0, op := "+", label := "", children := [8, 13], extra := 0 },
        { data := F.powf (F.fexp ((b0 + w0 * x0) * 2) + 1) (-1), grad := 0, op := "pow(" ++ F.fmt (-1) ++ ")", label := "", children := [14], extra := -1 },
        { data := (F.fexp ((b0 + w0 * x0) * 2) + -1) * F.powf (F.fexp ((b0 + w0 * x0) * 2) + 1) (-1), grad := 0, op := "*", label := "", children := [12, 15], extra := 0 }] : Graph α) [0, 1]) 16) 1 = 0
    rw [Value.backward]
    rw [show topoSort (zeroGrad
        ([{ data := w0, grad := 0, op := "", label := "", children := [], extra := 0 },
        { data := b0, grad := 0, op := "", label := "", children := [], extra := 0 },
        { data := x0, grad := 0, op := "", label := "", children := [], extra := 0 },
        { data := b0, grad := 0, op := "", label := "", children := [], extra := 0 },
        { data := w0 * x0, grad := 0, op := "*", label := "", children := [0, 2], extra := 0 },
        { data := b0 + w0 * x0, grad := 0, op := "+", label := "", children := [3, 4], extra := 0 },
        { data := 2, grad := 0, op := "", label := "", children := [], extra := 0 },
        { data := (b0 + w0 * x0) * 2, grad := 0, op := "*", label := "", children := [5, 6], extra := 0 },
        { data := F.fexp ((b0 + w0 * x0) * 2), grad := 0, op := "exp", label := "", children := [7], extra := 0 },
        { data := 1, grad := 0, op := "", label := "", children := [], extra := 0 },
        { data := -1, grad := 0, op := "", label := "", children := [], extra := 0 },
        { data := -1, grad := 0, op := "*", label := "", children := [9, 10], extra := 0 },
        { data := F.fexp ((b0 + w0 * x0) * 2) + -1, grad := 0, op := "+", label := "", children := [8, 11], extra := 0 },
        { data := 1, grad := 0, op := "", label := "", children := [], extra := 0 },
        { data := F.fexp ((b0 + w0 * x0) * 2) + 1, grad := 0, op := "+", label := "", children := [8, 13], extra := 0 },
        { data := F.powf (F.fexp ((b0 + w0 * x0) * 2) + 1) (-1), grad := 0, op := "pow(" ++ F.fmt (-1) ++ ")", label := "", children := [14], extra := -1 },
        { data := (F.fexp ((b0 + w0 * x0) * 2) + -1) * F.powf (F.fexp ((b0 + w0 * x0) * 2) + 1) (-1), grad := 0, op := "*", label := "", children := [12, 15], extra := 0 }] : Graph α) [0, 1]) 16
      = [13, 6, 2, 0, 4, 3, 5, 7, 8, 14, 15, 10, 9, 11, 12, 16] from rfl]
    have hside : ∀ t ∈ ([13, 6, 2, 0, 4, 3, 5, 7, 8, 14, 15, 10, 9, 11, 12, 16] : List Nat).reverse,
        (1 : Nat) ≠ (getChildren (Value.set_grad (zeroGrad
          ([{ data := w0, grad := 0, op := "", label := "", children := [], extra := 0 },
        { data := b0, grad := 0, op := "", label := "", children := [], extra := 0 },
        { data := x0, grad := 0, op := "", label := "", children := [], extra := 0 },
        { data := b0, grad := 0, op := "", label := "", children := [], extra := 0 },
        { data := w0 * x0, grad := 0, op := "*", label := "", children := [0, 2], extra := 0 },
        { data := b0 + w0 * x0, grad := 0, op := "+", label := "", children := [3, 4], extra := 0 },
        { data := 2, grad := 0, op := "", label := "", children := [], extra := 0 },
        { data := (b0 + w0 * x0) * 2, grad := 0, op := "*", label := "", children := [5, 6], extra := 0 },
        { data := F.fexp ((b0 + w0 * x0) * 2), grad := 0, op := "exp", label := "", children := [7], extra := 0 },
        { data := 1, grad := 0, op := "", label := "", children := [], extra := 0 },
        { data := -1, grad := 0, op := "", label := "", children := [], extra := 0 },
        { data := -1, grad := 0, op := "*", label := "", children := [9, 10], extra := 0 },
        { data := F.fexp ((b0 + w0 * x0) * 2) + -1, grad := 0, op := "+", label := "", children := [8, 11], extra := 0 },
        { data := 1, grad := 0, op := "", label := "", children := [], extra := 0 },
        { data := F.fexp ((b0 + w0 * x0) * 2) + 1, grad := 0, op := "+", label := "", children := [8, 13], extra := 0 },
        { data := F.powf (F.fexp ((b0 + w0 * x0) * 2) + 1) (-1), grad := 0, op := "pow(" ++ F.fmt (-1) ++ ")", label := "", children := [14], extra := -1 },
        { data := (F.fexp ((b0 + w0 * x0) * 2) + -1) * F.powf (F.fexp ((b0 + w0 * x0) * 2) + 1) (-1), grad := 0, op := "*", label := "", children := [12, 15], extra := 0 }] : Graph α) [0, 1]) 16 1) t).getD 0 0
        ∧ (1 : Nat) ≠ (getChildren (Value.set_grad (zeroGrad
          ([{ data := w0, grad := 0, op := "", label := "", children := [], extra := 0 },
        { data := b0, grad := 0, op := "", label := "", children := [], extra := 0 },
        { data := x0, grad := 0, op := "", label := "", children := [], extra := 0 },
        { data := b0, grad := 0, op := "", label := "", children := [], extra := 0 },
        { data := w0 * x0, grad := 0, op := "*", label := "", children := [0, 2], extra := 0 },
        { data := b0 + w0 * x0, grad := 0, op := "+", label := "", children := [3, 4], extra := 0 },
        { data := 2, grad := 0, op := "", label := "", children := [], extra := 0 },
        { data := (b0 + w0 * x0) * 2, grad := 0, op := "*", label := "", children := [5, 6], extra := 0 },
        { data := F.fexp ((b0 + w0 * x0) * 2), grad := 0, op := "exp", label := "", children := [7], extra := 0 },
        { data := 1, grad := 0, op := "", label := "", children := [], extra := 0 },
        { data := -1, grad := 0, op := "", label := "", children := [], extra := 0 },
        { data := -1, grad := 0, op := "*", label := "", children := [9, 10], extra := 0 },
        { data := F.fexp ((b0 + w0 * x0) * 2) + -1, grad := 0, op := "+", label := "", children := [8, 11], extra := 0 },
        { data := 1, grad := 0, op := "", label := "", children := [], extra := 0 },
        { data := F.fexp ((b0 + w0 * x0) * 2) + 1, grad := 0, op := "+", label := "", children := [8, 13], extra := 0 },
        { data := F.powf (F.fexp ((b0 + w0 * x0) * 2) + 1) (-1), grad := 0, op := "pow(" ++ F.fmt (-1) ++ ")", label := "", children := [14], extra := -1 },
        { data := (F.fexp ((b0 + w0 * x0) * 2) + -1) * F.powf (F.fexp ((b0 + w0 * x0) * 2) + 1) (-1), grad := 0, op := "*", label := "", children := [12, 15], extra := 0 }] : Graph α) [0, 1]) 16 1) t).getD 1 0 := by
      simp [zeroGrad, Value.set_grad, getChildren, getRaw, getGrad, List.getD, List.set]
    rw [getGrad_walk_notmem F 1 _ _ hside]
    rfl

/-- C5: `power(a, p)` stores `a.value ^ p` (real `rpow`, the model of
`f64::powf`), and `backward` on the pow node (fresh, zero gradients)
leaves `p * a.value ^ (p - 1)` in `a`'s gradient — for every real `a`
and exponent `p`, which subsumes the representatives -1, 0.5, 2, 3. -/
theorem pow_value_and_grad (a p : ℝ) :
    getData
      (Value.pow realOps (Value.new ([] : Graph ℝ) a).1 (Value.new ([] : Graph ℝ) a).2 p).1
      (Value.pow realOps (Value.new ([] : Graph ℝ) a).1 (Value.new ([] : Graph ℝ) a).2 p).2
      = a ^ p
    ∧ getGrad
        (Value.backward realOps
          (Value.pow realOps (Value.new ([] : Graph ℝ) a).1
            (Value.new ([] : Graph ℝ) a).2 p).1
          (Value.pow realOps (Value.new ([] : Graph ℝ) a).1
            (Value.new ([] : Graph ℝ) a).2 p).2)
        (Value.new ([] : Graph ℝ) a).2
      = p * a ^ (p - 1) := by
  constructor
  · rfl
  · show getGrad (Value.backward realOps
      ((Value.pow realOps ((Value.new ([] : Graph ℝ) a).1) 0 p).1) 1) 0
      = p * a ^ (p - 1)
    have ht : topoSort ((Value.pow realOps ((Value.new ([] : Graph ℝ) a).1) 0 p).1) 1
        = [0, 1] := rfl
    rw [Value.backward, ht]
    simp [Value.backwardNode, Value.new, Value.pow, startsWithTag, realOps,
      Value.new_for_op, Value.set_grad, Value.update_grad, getGrad, getRaw, getData,
      getChildren, getOp, getExtra, List.getD, List.set]

/-! ### The node each constructor returns -/

theorem getRaw_append_last (g : Graph α) (r : RawValue α) :
    getRaw (g ++ [r]) g.length = r := by
  simp [getRaw, List.getD_eq_getElem?_getD]

theorem new_for_op_fields (g : Graph α) (d : α) (s : String) (cs : List Nat) (p : α) :
    getRaw (Value.new_for_op g d s cs p).1 (Value.new_for_op g d s cs p).2
      = { data := d, grad := 0, op := s, label := "", children := cs, extra := p } := by
  rw [Value.new_for_op]
  exact getRaw_append_last ..

theorem new_fields (g : Graph α) (d : α) :
    getRaw (Value.new g d).1 (Value.new g d).2
      = { data := d, grad := 0, op := "", label := "", children := [], extra := 0 } := by
  rw [Value.new]
  exact getRaw_append_last ..

theorem add_fields (g : Graph α) (i j : Nat) :
    getRaw (Value.add g i j).1 (Value.add g i j).2
      = { data := getData g i + getData g j, grad := 0, op := "+", label := "",
          children := [i, j], extra := 0 } :=
  new_for_op_fields ..

theorem mul_fields (g : Graph α) (i j : Nat) :
    getRaw (Value.mul g i j).1 (Value.mul g i j).2
      = { data := getData g i * getData g j, grad := 0, op := "*", label := "",
          children := [i, j], extra := 0 } :=
  new_for_op_fields ..

theorem pow_fields (F : FloatOps α) (g : Graph α) (i : Nat) (p : α) :
    getRaw (Value.pow F g i p).1 (Value.pow F g i p).2
      = { data := F.powf (getData g i) p, grad := 0, op := "pow(" ++ F.fmt p ++ ")",
          label := "", children := [i], extra := p } :=
  new_for_op_fields ..

theorem neg_fields (g : Graph α) (i : Nat) (hi : i < g.length) :
    getRaw (Value.neg g i).1 (Value.neg g i).2
      = { data := getData g i * -1, grad := 0, op := "*", label := "",
          children := [i, g.length], extra := 0 } := by
  rw [show Value.neg g i = Value.mul (Value.new g (-1)).1 i (Value.new g (-1)).2
    from rfl, mul_fields]
  have h1 : getData (Value.new g (-1)).1 i = getData g i := by
    rw [getData, (new_extends g (-1)).2 i hi]
    rfl
  have h2 : getData (Value.new g (-1)).1 (Value.new g (-1)).2 = -1 := by
    rw [getData, new_fields]
  rw [h1, h2]
  rfl

theorem sub_fields (g : Graph α) (i j : Nat) (hi : i < g.length) (hj : j < g.length) :
    getRaw (Value.sub g i j).1 (Value.sub g i j).2
      = { data := getData g i + getData g j * -1, grad := 0, op := "+", label := "",
          children := [i, (Value.neg g j).2], extra := 0 } := by
  rw [show Value.sub g i j = Value.add (Value.neg g j).1 i (Value.neg g j).2
    from rfl, add_fields]
  have h1 : getData (Value.neg g j).1 i = getData g i := by
    rw [getData, (neg_extends g j).2 i hi]
    rfl
  have h2 : getData (Value.neg g j).1 (Value.neg g j).2 = getData g j * -1 := by
    rw [getData, neg_fields g j hj]
  rw [h1, h2]

theorem div_fields (F : FloatOps α) (g : Graph α) (i j : Nat)
    (hi : i < g.length) :
    getRaw (Value.div F g i j).1 (Value.div F g i j).2
      = { data := getData g i * F.powf (getData g j) (-1), grad := 0, op := "*",
          label := "", children := [i, (Value.pow F g j (-1)).2], extra := 0 } := by
  rw [show Value.div F g i j
    = Value.mul (Value.pow F g j (-1)).1 i (Value.pow F g j (-1)).2 from rfl, mul_fields]
  have h1 : getData (Value.pow F g j (-1)).1 i = getData g i := by
    rw [getData, (pow_extends F g j (-1)).2 i hi]
    rfl
  have h2 : getData (Value.pow F g j (-1)).1 (Value.pow F g j (-1)).2
      = F.powf (getData g j) (-1) := by
    rw [getData, pow_fields]
  rw [h1, h2]

/-- C7: the derived operations are compositions of the primitives —
`sub(a,b)` *is* `add(a, neg(b))`, `neg(a)` *is* `mul(a, leaf(-1))`,
`div(a,b)` *is* `mul(a, pow(b, -1))` — as graph construction, as
operation tags and operand wiring of the produced nodes, and in the
stored values (e.g. `div` stores `a.value * b.value ^ (-1) =
a.value / b.value`); hence only the add/multiply/power/exponential
local-gradient rules are ever dispatched. -/
theorem derived_ops_refinement (g : Graph ℝ) (i j : Nat) (hi : i < g.length)
    (hj : j < g.length) :
    Value.sub g i j = Value.add (Value.neg g j).1 i (Value.neg g j).2
    ∧ Value.neg g j = Value.mul (Value.new g (-1)).1 j (Value.new g (-1)).2
    ∧ Value.div realOps g i j
        = Value.mul (Value.pow realOps g j (-1)).1 i (Value.pow realOps g j (-1)).2
    ∧ getOp (Value.sub g i j).1 (Value.sub g i j).2 = "+"
    ∧ getChildren (Value.sub g i j).1 (Value.sub g i j).2 = [i, (Value.neg g j).2]
    ∧ getOp (Value.neg g j).1 (Value.neg g j).2 = "*"
    ∧ getChildren (Value.neg g j).1 (Value.neg g j).2 = [j, g.length]
    ∧ getData (Value.neg g j).1 g.length = -1
    ∧ getOp (Value.neg g j).1 g.length = ""
    ∧ getOp (Value.div realOps g i j).1 (Value.div realOps g i j).2 = "*"
    ∧ getChildren (Value.div realOps g i j).1 (Value.div realOps g i j).2
        = [i, (Value.pow realOps g j (-1)).2]
    ∧ startsWithTag
        (getOp (Value.pow realOps g j (-1)).1 (Value.pow realOps g j (-1)).2)
        "pow(" = true
    ∧ getChildren (Value.pow realOps g j (-1)).1 (Value.pow realOps g j (-1)).2 = [j]
    ∧ getExtra (Value.pow realOps g j (-1)).1 (Value.pow realOps g j (-1)).2 = -1
    ∧ getData (Value.sub g i j).1 (Value.sub g i j).2 = getData g i - getData g j
    ∧ getData (Value.neg g j).1 (Value.neg g j).2 = -getData g j
    ∧ getData (Value.div realOps g i j).1 (Value.div realOps g i j).2
        = getData g i / getData g j := by
  have hleaf : getRaw (Value.neg g j).1 g.length
      = { data := -1, grad := 0, op := "", label := "", children := [], extra := 0 } := by
    rw [show Value.neg g j = Value.mul (Value.new g (-1)).1 j (Value.new g (-1)).2
      from rfl]
    have hlt : g.length < (Value.new g (-1)).1.length := by
      rw [Value.new]
      simp
    rw [(mul_extends (Value.new g (-1)).1 j (Value.new g (-1)).2).2 g.length hlt]
    exact new_fields g (-1)
  refine ⟨rfl, rfl, rfl, ?_, ?_, ?_, ?_, ?_, ?_, ?_, ?_, ?_, ?_, ?_, ?_, ?_, ?_⟩
  · rw [getOp, sub_fields g i j hi hj]
  · rw [getChildren, sub_fields g i j hi hj]
  · rw [getOp, neg_fields g j hj]
  · rw [getChildren, neg_fields g j hj]
  · rw [getData, hleaf]
  · rw [getOp, hleaf]
  · rw [getOp, div_fields realOps g i j hi]
  · rw [getChildren, div_fields realOps g i j hi]
  · rw [getOp, pow_fields]
    show startsWithTag ("pow(" ++ realOps.fmt (-1) ++ ")") "pow(" = true
    decide
  · rw [getChildren, pow_fields]
  · rw [getExtra, pow_fields]
  · rw [getData, sub_fields g i j hi hj]
    show getData g i + getData g j * -1 = _
    ring
  · rw [getData, neg_fields g j hj]
    show getData g j * -1 = _
    ring
  · rw [getData, div_fields realOps g i j hi]
    show getData g i * (getData g j) ^ (-1 : ℝ) = _
    rw [show ((-1 : ℝ)) = ((-1 : ℤ) : ℝ) by norm_num, Real.rpow_intCast, zpow_neg_one,
      div_eq_mul_inv]


/-- Witness for the refinement theorem at a two-leaf real arena. -/
theorem derived_ops_refinement_witness :
    0 < twoRealLeaves.length ∧ 1 < twoRealLeaves.length
    ∧ (
    Value.sub twoRealLeaves 0 1 = Value.add (Value.neg twoRealLeaves 1).1 0 (Value.neg twoRealLeaves 1).2
    ∧ Value.neg twoRealLeaves 1 = Value.mul (Value.new twoRealLeaves (-1)).1 1 (Value.new twoRealLeaves (-1)).2
    ∧ Value.div realOps twoRealLeaves 0 1
        = Value.mul (Value.pow realOps twoRealLeaves 1 (-1)).1 0 (Value.pow realOps twoRealLeaves 1 (-1)).2
    ∧ getOp (Value.sub twoRealLeaves 0 1).1 (Value.sub twoRealLeaves 0 1).2 = "+"
    ∧ getChildren (Value.sub twoRealLeaves 0 1).1 (Value.sub twoRealLeaves 0 1).2 = [0, (Value.neg twoRealLeaves 1).2]
    ∧ getOp (Value.neg twoRealLeaves 1).1 (Value.neg twoRealLeaves 1).2 = "*"
    ∧ getChildren (Value.neg twoRealLeaves 1).1 (Value.neg twoRealLeaves 1).2 = [1, twoRealLeaves.length]
    ∧ getData (Value.neg twoRealLeaves 1).1 twoRealLeaves.length = -1
    ∧ getOp (Value.neg twoRealLeaves 1).1 twoRealLeaves.length = ""
    ∧ getOp (Value.div realOps twoRealLeaves 0 1).1 (Value.div realOps twoRealLeaves 0 1).2 = "*"
    ∧ getChildren (Value.div realOps twoRealLeaves 0 1).1 (Value.div realOps twoRealLeaves 0 1).2
        = [0, (Value.pow realOps twoRealLeaves 1 (-1)).2]
    ∧ startsWithTag
        (getOp (Value.pow realOps twoRealLeaves 1 (-1)).1 (Value.pow realOps twoRealLeaves 1 (-1)).2)
        "pow(" = true
    ∧ getChildren (Value.pow realOps twoRealLeaves 1 (-1)).1 (Value.pow realOps twoRealLeaves 1 (-1)).2 = [1]
    ∧ getExtra (Value.pow realOps twoRealLeaves 1 (-1)).1 (Value.pow realOps twoRealLeaves 1 (-1)).2 = -1
    ∧ getData (Value.sub twoRealLeaves 0 1).1 (Value.sub twoRealLeaves 0 1).2 = getData twoRealLeaves 0 - getData twoRealLeaves 1
    ∧ getData (Value.neg twoRealLeaves 1).1 (Value.neg twoRealLeaves 1).2 = -getData twoRealLeaves 1
    ∧ getData (Value.div realOps twoRealLeaves 0 1).1 (Value.div realOps twoRealLeaves 0 1).2
        = getData twoRealLeaves 0 / getData twoRealLeaves 1) :=
  ⟨by decide, by decide,
    derived_ops_refinement twoRealLeaves 0 1 (by decide) (by decide)⟩

/-- C4: for every real leaf value `x`, the `tanh` node's value is the
mathematical `tanh x` (hence strictly inside (-1, 1)), and `backward`
on the tanh output (fresh, zero gradients) leaves `1 - tanh(x)²` in
`x`'s gradient — the engine reproduces the analytic derivative through
the `exp`/`div`/`pow` composition that `Value::tanh` actually builds. -/
theorem tanh_value_range_and_grad (x : ℝ) :
    getData
      (Value.tanh realOps (Value.new ([] : Graph ℝ) x).1 (Value.new ([] : Graph ℝ) x).2).1
      (Value.tanh realOps (Value.new ([] : Graph ℝ) x).1 (Value.new ([] : Graph ℝ) x).2).2
      = Real.tanh x
    ∧ -1 < getData
        (Value.tanh realOps (Value.new ([] : Graph ℝ) x).1
          (Value.new ([] : Graph ℝ) x).2).1
        (Value.tanh realOps (Value.new ([] : Graph ℝ) x).1
          (Value.new ([] : Graph ℝ) x).2).2
    ∧ getData
        (Value.tanh realOps (Value.new ([] : Graph ℝ) x).1
          (Value.new ([] : Graph ℝ) x).2).1
        (Value.tanh realOps (Value.new ([] : Graph ℝ) x).1
          (Value.new ([] : Graph ℝ) x).2).2 < 1
    ∧ getGrad
        (Value.backward realOps
          (Value.tanh realOps (Value.new ([] : Graph ℝ) x).1
            (Value.new ([] : Graph ℝ) x).2).1
          (Value.tanh realOps (Value.new ([] : Graph ℝ) x).1
            (Value.new ([] : Graph ℝ) x).2).2)
        (Value.new ([] : Graph ℝ) x).2
      = 1 - Real.tanh x ^ 2 := by
  have hg : Value.tanh realOps (Value.new ([] : Graph ℝ) x).1
      (Value.new ([] : Graph ℝ) x).2 =
      ([{ data := x, grad := 0, op := "", label := "", children := [], extra := 0 },
        { data := 2, grad := 0, op := "", label := "", children := [], extra := 0 },
        { data := x * 2, grad := 0, op := "*", label := "", children := [0, 1], extra := 0 },
        { data := Real.exp (x * 2), grad := 0, op := "exp", label := "", children := [2], extra := 0 },
        { data := 1, grad := 0, op := "", label := "", children := [], extra := 0 },
        { data := -1, grad := 0, op := "", label := "", children := [], extra := 0 },
        { data := -1, grad := 0, op := "*", label := "", children := [4, 5], extra := 0 },
        { data := Real.exp (x * 2) + -1, grad := 0, op := "+", label := "", children := [3, 6], extra := 0 },
        { data := 1, grad := 0, op := "", label := "", children := [], extra := 0 },
        { data := Real.exp (x * 2) + 1, grad := 0, op := "+", label := "", children := [3, 8], extra := 0 },
        { data := (Real.exp (x * 2) + 1) ^ (-1 : ℝ), grad := 0, op := "pow()", label := "", children := [9], extra := -1 },
        { data := (Real.exp (x * 2) + -1) * (Real.exp (x * 2) + 1) ^ (-1 : ℝ), grad := 0, op := "*", label := "", children := [7, 10], extra := 0 }],
       11) := by
    show Value.tanh realOps
      [{ data := x, grad := 0, op := "", label := "", children := [], extra := 0 }] 0 = _
    simp [Value.tanh, Value.div, Value.sub, Value.neg, Value.pow, Value.exp,
      Value.mul, Value.add, Value.new, Value.new_for_op, realOps, getData, getRaw,
      List.getD]
  have hE : (0:ℝ) < Real.exp (x * 2) := Real.exp_pos _
  have hval : (Real.exp (x * 2) + -1) * (Real.exp (x * 2) + 1) ^ (-1 : ℝ)
      = Real.tanh x := by
    rw [show ((-1:ℝ)) = ((-1 : ℤ) : ℝ) by norm_num, Real.rpow_intCast, zpow_neg_one]
    rw [Real.tanh_eq_sinh_div_cosh, Real.sinh_eq, Real.cosh_eq]
    have hx2 : Real.exp (x * 2) = Real.exp x * Real.exp x := by
      rw [show x * 2 = x + x by ring, Real.exp_add]
    rw [hx2, Real.exp_neg]
    have h1 : Real.exp x ≠ 0 := Real.exp_ne_zero x
    have h2 : Real.exp x * Real.exp x + 1 ≠ 0 := by positivity
    have h3 : Real.exp x + (Real.exp x)⁻¹ ≠ 0 := by positivity
    field_simp
    ring
  have hvpos : (0:ℝ) < Real.exp (x * 2) + 1 := by positivity
  refine ⟨?_, ?_, ?_, ?_⟩
  · rw [hg]
    show (Real.exp (x * 2) + -1) * (Real.exp (x * 2) + 1) ^ (-1 : ℝ) = Real.tanh x
    exact hval
  · rw [hg]
    show (-1 : ℝ) < (Real.exp (x * 2) + -1) * (Real.exp (x * 2) + 1) ^ (-1 : ℝ)
    rw [show ((-1:ℝ)) = ((-1 : ℤ) : ℝ) by norm_num, Real.rpow_intCast, zpow_neg_one,
      ← div_eq_mul_inv]
    rw [lt_div_iff₀ hvpos]
    push_cast
    nlinarith
  · rw [hg]
    show (Real.exp (x * 2) + -1) * (Real.exp (x * 2) + 1) ^ (-1 : ℝ) < 1
    rw [show ((-1:ℝ)) = ((-1 : ℤ) : ℝ) by norm_num, Real.rpow_intCast, zpow_neg_one,
      ← div_eq_mul_inv]
    rw [div_lt_one hvpos]
    push_cast
    linarith
  · rw [hg]
    show getGrad (Value.backward realOps
      ([{ data := x, grad := 0, op := "", label := "", children := [], extra := 0 },
        { data := 2, grad := 0, op := "", label := "", children := [], extra := 0 },
        { data := x * 2, grad := 0, op := "*", label := "", children := [0, 1], extra := 0 },
        { data := Real.exp (x * 2), grad := 0, op := "exp", label := "", children := [2], extra := 0 },
        { data := 1, grad := 0, op := "", label := "", children := [], extra := 0 },
        { data := -1, grad := 0, op := "", label := "", children := [], extra := 0 },
        { data := -1, grad := 0, op := "*", label := "", children := [4, 5], extra := 0 },
        { data := Real.exp (x * 2) + -1, grad := 0, op := "+", label := "", children := [3, 6], extra := 0 },
        { data := 1, grad := 0, op := "", label := "", children := [], extra := 0 },
        { data := Real.exp (x * 2) + 1, grad := 0, op := "+", label := "", children := [3, 8], extra := 0 },
        { data := (Real.exp (x * 2) + 1) ^ (-1 : ℝ), grad := 0, op := "pow()", label := "", children := [9], extra := -1 },
        { data := (Real.exp (x * 2) + -1) * (Real.exp (x * 2) + 1) ^ (-1 : ℝ), grad := 0, op := "*", label := "", children := [7, 10], extra := 0 }] : Graph ℝ) 11) 0 = 1 - Real.tanh x ^ 2
    rw [Value.backward, show topoSort
      ([{ data := x, grad := 0, op := "", label := "", children := [], extra := 0 },
        { data := 2, grad := 0, op := "", label := "", children := [], extra := 0 },
        { data := x * 2, grad := 0, op := "*", label := "", children := [0, 1], extra := 0 },
        { data := Real.exp (x * 2), grad := 0, op := "exp", label := "", children := [2], extra := 0 },
        { data := 1, grad := 0, op := "", label := "", children := [], extra := 0 },
        { data := -1, grad := 0, op := "", label := "", children := [], extra := 0 },
        { data := -1, grad := 0, op := "*", label := "", children := [4, 5], extra := 0 },
        { data := Real.exp (x * 2) + -1, grad := 0, op := "+", label := "", children := [3, 6], extra := 0 },
        { data := 1, grad := 0, op := "", label := "", children := [], extra := 0 },
        { data := Real.exp (x * 2) + 1, grad := 0, op := "+", label := "", children := [3, 8], extra := 0 },
        { data := (Real.exp (x * 2) + 1) ^ (-1 : ℝ), grad := 0, op := "pow()", label := "", children := [9], extra := -1 },
        { data := (Real.exp (x * 2) + -1) * (Real.exp (x * 2) + 1) ^ (-1 : ℝ), grad := 0, op := "*", label := "", children := [7, 10], extra := 0 }] : Graph ℝ) 11 = [8, 1, 0, 2, 3, 9, 10, 5, 4, 6, 7, 11] from rfl]
    rw [← hval]
    simp [Value.backwardNode, startsWithTag, realOps, Value.set_grad,
      Value.update_grad, getGrad, getRaw, getData, getChildren, getOp, getExtra,
      List.getD, List.set]
    have hne : Real.exp (x * 2) + 1 ≠ 0 := ne_of_gt hvpos
    rw [show ((-1:ℝ) - 1) = ((-2 : ℤ) : ℝ) by norm_num,
      show ((-1:ℝ)) = ((-1 : ℤ) : ℝ) by norm_num]
    simp only [Real.rpow_intCast]
    rw [zpow_neg_one]
    have h2 : (Real.exp (x * 2) + 1) ^ (-2 : ℤ)
        = ((Real.exp (x * 2) + 1) * (Real.exp (x * 2) + 1))⁻¹ := by
      rw [show (-2 : ℤ) = -(2 : ℤ) from rfl, zpow_neg, zpow_two]
    rw [h2]
    push_cast
    field_simp
    ring
